import Mathlib

/-!
# Verification of the WhatsApp template service provider-sync engine

This file gives a shallow embedding, in Lean 4, of the core logic of the
`wa_templates` Django application: the content-hash engine
(`WhatsAppTemplate.generate_hash`, `models.py`), the Gupshup provider sync
(`providers/gupshup.py`), the task orchestration with retry
(`tasks.py`), the webhook reconciler (`webhooks/gupshup_webhook.py`) and
the media-handle detector (`utils/media_validator.py`), together with
theorems settling the behavioural claims about that code.

Modelling conventions:
* Python JSON values are modelled by `JVal` (floats are out of the model's
  scope; the provider payloads in question carry null/bool/int/string/
  array/object values).  Python `dict`s are modelled as association lists
  whose keys are strictly sorted in code-point order — the canonical
  representative of a dict, which is also exactly the order in which
  `json.dumps(..., sort_keys=True)` emits the entries.  The predicate
  `canon` states that every object inside a value is in this canonical
  form.
* Python `str` values are modelled by `String` (sequences of Unicode
  scalar values — what the database columns can hold).
* `json.dumps` with its default arguments (`ensure_ascii=True`,
  separators `", "` / `": "`) is modelled by `dumps` below, including the
  `\uXXXX` escapes and surrogate-pair encoding of astral characters.
* MD5 is implemented in full (RFC 1321) over the UTF-8 bytes of the
  serialized string.
-/

namespace WaTemplates

/-! ## JSON value model -/

inductive JVal where
  | jnull
  | jbool (b : Bool)
  | jint (n : Int)
  | jstr (s : String)
  | jarr (elems : List JVal)
  | jobj (entries : List (String × JVal))

/-- Code-point lexicographic order on strings: Python's `<` on `str`,
which is the order `sorted`/`sort_keys` uses. -/
def strLtB : List Char → List Char → Bool
  | _, [] => false
  | [], _ :: _ => true
  | a :: as, b :: bs =>
    if a.toNat < b.toNat then true
    else if b.toNat < a.toNat then false
    else strLtB as bs

def keyLt (a b : String) : Bool := strLtB a.data b.data

/-- Canonical-form check: every object's keys strictly increase in
code-point order (the canonical association-list representative of a
Python dict). -/
def canon : JVal → Bool
  | .jnull => true
  | .jbool _ => true
  | .jint _ => true
  | .jstr _ => true
  | .jarr [] => true
  | .jarr (e :: es) => canon e && canon (.jarr es)
  | .jobj [] => true
  | .jobj [(_, v)] => canon v
  | .jobj ((k1, v1) :: (k2, v2) :: es) =>
    keyLt k1 k2 && canon v1 && canon (.jobj ((k2, v2) :: es))

/-! ## Python `json.dumps` (ensure_ascii) -/

/-- Lowercase hex digit, as Python's `\uXXXX` escapes use. -/
def hexDigitChar (n : Nat) : Char :=
  if n < 10 then Char.ofNat (48 + n) else Char.ofNat (87 + n)

def hex4 (n : Nat) : List Char :=
  [hexDigitChar (n / 4096 % 16), hexDigitChar (n / 256 % 16),
   hexDigitChar (n / 16 % 16), hexDigitChar (n % 16)]

/-- `json.dumps` escaping of one character with `ensure_ascii=True`:
`"` and `\` get two-character escapes, the five short control escapes
are used for 0x08..0x0D (minus 0x0B), other chars below 0x20 and all
chars above 0x7E become `\uXXXX`, astral chars become a surrogate pair. -/
def encChar (c : Char) : List Char :=
  if c = '"' then ['\\', '"']
  else if c = '\\' then ['\\', '\\']
  else if c.toNat = 8 then ['\\', 'b']
  else if c.toNat = 9 then ['\\', 't']
  else if c.toNat = 10 then ['\\', 'n']
  else if c.toNat = 12 then ['\\', 'f']
  else if c.toNat = 13 then ['\\', 'r']
  else if c.toNat < 32 then '\\' :: 'u' :: hex4 c.toNat
  else if c.toNat < 127 then [c]
  else if c.toNat < 65536 then '\\' :: 'u' :: hex4 c.toNat
  else
    ('\\' :: 'u' :: hex4 (55296 + (c.toNat - 65536) / 1024)) ++
    ('\\' :: 'u' :: hex4 (56320 + (c.toNat - 65536) % 1024))

def encStr (s : String) : List Char :=
  '"' :: (s.data.flatMap encChar) ++ ['"']

def digitChar (n : Nat) : Char := Char.ofNat (48 + n % 10)

def natReprF : Nat → Nat → List Char
  | 0, _ => []
  | fuel + 1, n =>
    if n < 10 then [digitChar n]
    else natReprF fuel (n / 10) ++ [digitChar (n % 10)]

def natRepr (n : Nat) : List Char := natReprF (n + 1) n

theorem natReprF_mono : ∀ n f1 f2, n < f1 → n < f2 → natReprF f1 n = natReprF f2 n := by
  intro n
  induction n using Nat.strong_induction_on with
  | _ n ih =>
    intro f1 f2 h1 h2
    match f1, f2 with
    | a + 1, b + 1 =>
      unfold natReprF
      by_cases h : n < 10
      · rw [if_pos h, if_pos h]
      · rw [if_neg h, if_neg h]
        have hdn : n / 10 < n := Nat.div_lt_self (by omega) (by omega)
        rw [ih (n / 10) hdn a b (by omega) (by omega)]

theorem natRepr_eq (n : Nat) :
    natRepr n = if n < 10 then [digitChar n] else natRepr (n / 10) ++ [digitChar (n % 10)] := by
  unfold natRepr
  conv_lhs => unfold natReprF
  by_cases h : n < 10
  · rw [if_pos h, if_pos h]
  · rw [if_neg h, if_neg h]
    have hdn : n / 10 < n := Nat.div_lt_self (by omega) (by omega)
    rw [natReprF_mono (n / 10) n (n / 10 + 1) (by omega) (by omega)]

/-- Python `str()` of an `int`. -/
def intRepr (i : Int) : List Char :=
  if i < 0 then '-' :: natRepr (-i).toNat else natRepr i.toNat

mutual

/-- Serialization of a canonical `JVal` exactly as
`json.dumps(value, sort_keys=True)` prints it (default separators
`", "` and `": "`; objects are already in sorted-key order by the
`canon` convention). -/
def encJ : JVal → List Char
  | .jnull => ['n', 'u', 'l', 'l']
  | .jbool true => ['t', 'r', 'u', 'e']
  | .jbool false => ['f', 'a', 'l', 's', 'e']
  | .jint i => intRepr i
  | .jstr s => encStr s
  | .jarr es => '[' :: encArr es
  | .jobj es => '{' :: encObj es

def encArr : List JVal → List Char
  | [] => [']']
  | [e] => encJ e ++ [']']
  | e :: e2 :: es => encJ e ++ ',' :: ' ' :: encArr (e2 :: es)

def encObj : List (String × JVal) → List Char
  | [] => ['}']
  | [(k, v)] => encStr k ++ ':' :: ' ' :: encJ v ++ ['}']
  | (k, v) :: e2 :: es => encStr k ++ ':' :: ' ' :: encJ v ++ ',' :: ' ' :: encObj (e2 :: es)

end

def dumps (v : JVal) : String := String.mk (encJ v)

/-! ## MD5 (RFC 1321) over byte lists, bytes as `Nat < 256` -/

def m32 (n : Nat) : Nat := n % 4294967296

def bnot32 (x : Nat) : Nat := Nat.xor x 4294967295

def rotl32 (x s : Nat) : Nat := m32 (x * 2 ^ s) + x % 4294967296 / 2 ^ (32 - s)

def md5K : List Nat :=
  [3614090360, 3905402710, 606105819, 3250441966,
   4118548399, 1200080426, 2821735955, 4249261313,
   1770035416, 2336552879, 4294925233, 2304563134,
   1804603682, 4254626195, 2792965006, 1236535329,
   4129170786, 3225465664, 643717713, 3921069994,
   3593408605, 38016083, 3634488961, 3889429448,
   568446438, 3275163606, 4107603335, 1163531501,
   2850285829, 4243563512, 1735328473, 2368359562,
   4294588738, 2272392833, 1839030562, 4259657740,
   2763975236, 1272893353, 4139469664, 3200236656,
   681279174, 3936430074, 3572445317, 76029189,
   3654602809, 3873151461, 530742520, 3299628645,
   4096336452, 1126891415, 2878612391, 4237533241,
   1700485571, 2399980690, 4293915773, 2240044497,
   1873313359, 4264355552, 2734768916, 1309151649,
   4149444226, 3174756917, 718787259, 3951481745]

def md5S : List Nat :=
  [7, 12, 17, 22, 7, 12, 17, 22, 7, 12, 17, 22, 7, 12, 17, 22,
   5, 9, 14, 20, 5, 9, 14, 20, 5, 9, 14, 20, 5, 9, 14, 20,
   4, 11, 16, 23, 4, 11, 16, 23, 4, 11, 16, 23, 4, 11, 16, 23,
   6, 10, 15, 21, 6, 10, 15, 21, 6, 10, 15, 21, 6, 10, 15, 21]

def md5Fr (b c d : Nat) : Nat := Nat.lor (Nat.land b c) (Nat.land (bnot32 b) d)
def md5Gr (b c d : Nat) : Nat := Nat.lor (Nat.land d b) (Nat.land (bnot32 d) c)
def md5Hr (b c d : Nat) : Nat := Nat.xor b (Nat.xor c d)
def md5Ir (b c d : Nat) : Nat := Nat.xor c (Nat.lor b (bnot32 d))

/-- One of the 64 MD5 operations: `w` are the 16 message words of the
current block, `i` the operation index. -/
def md5Op (w : List Nat) (i : Nat) : Nat × Nat × Nat × Nat → Nat × Nat × Nat × Nat :=
  fun (a, b, c, d) =>
    let fg : Nat × Nat :=
      if i < 16 then (md5Fr b c d, i)
      else if i < 32 then (md5Gr b c d, (5 * i + 1) % 16)
      else if i < 48 then (md5Hr b c d, (3 * i + 5) % 16)
      else (md5Ir b c d, (7 * i) % 16)
    let tmp := m32 (a + fg.1 + md5K.getD i 0 + w.getD fg.2 0)
    (d, m32 (b + rotl32 tmp (md5S.getD i 0)), b, c)

/-- Split a 64-byte block into 16 little-endian 32-bit words. -/
def md5Words : List Nat → List Nat
  | b0 :: b1 :: b2 :: b3 :: rest =>
    (b0 + b1 * 256 + b2 * 65536 + b3 * 16777216) :: md5Words rest
  | _ => []

def md5Block (st : Nat × Nat × Nat × Nat) (block : List Nat) : Nat × Nat × Nat × Nat :=
  let w := md5Words block
  let (a, b, c, d) := (List.range 64).foldl (fun s i => md5Op w i s) st
  (m32 (st.1 + a), m32 (st.2.1 + b), m32 (st.2.2.1 + c), m32 (st.2.2.2 + d))

def chunk64F : Nat → List Nat → List (List Nat)
  | _, [] => []
  | 0, _ => []
  | fuel + 1, b :: bs => ((b :: bs).take 64) :: chunk64F fuel ((b :: bs).drop 64)

def chunk64 (bs : List Nat) : List (List Nat) := chunk64F bs.length bs

/-- Little-endian byte expansion, `k` bytes. -/
def leBytes : Nat → Nat → List Nat
  | 0, _ => []
  | k + 1, n => n % 256 :: leBytes k (n / 256)

def md5Pad (msg : List Nat) : List Nat :=
  msg ++ 128 :: List.replicate ((119 - msg.length % 64) % 64) 0 ++
    leBytes 8 (msg.length * 8 % 18446744073709551616)

def hexByte (n : Nat) : List Char := [hexDigitChar (n / 16 % 16), hexDigitChar (n % 16)]

def md5Hex (msg : List Nat) : String :=
  let (a, b, c, d) :=
    (chunk64 (md5Pad msg)).foldl md5Block (1732584193, 4023233417, 2562383102, 271733878)
  String.mk ((leBytes 4 a ++ leBytes 4 b ++ leBytes 4 c ++ leBytes 4 d).flatMap hexByte)

/-- UTF-8 encoding of one character. -/
def utf8Char (c : Char) : List Nat :=
  let n := c.toNat
  if n < 128 then [n]
  else if n < 2048 then [192 + n / 64, 128 + n % 64]
  else if n < 65536 then [224 + n / 4096, 128 + n / 64 % 64, 128 + n % 64]
  else [240 + n / 262144, 128 + n / 4096 % 64, 128 + n / 64 % 64, 128 + n % 64]

def utf8Bytes (s : String) : List Nat := s.data.flatMap utf8Char

/-- `hashlib.md5(s.encode('utf-8')).hexdigest()`. -/
def md5HexUtf8 (s : String) : String := md5Hex (utf8Bytes s)

/-! ## The `WhatsAppTemplate` model (`wa_templates/models.py`)

One record of the `WhatsAppTemplate` table, with the Django column types
mapped to Lean types (`null=True` columns become `Option`, `JSONField`s
become `JVal` or association lists).  `appId` stands for
`provider_app_instance_app_id.app_id` (a non-nullable foreign key) and
`org_id` for the organisation key.  `pk` is the primary key, `none`
while the record has not been inserted yet (Python `obj.pk is None`).
`webhookMeta` keys are `Option String` because the webhook handler can
use Python `None` as a dict key for untyped legacy events. -/

structure Template where
  templateType : String
  languageCode : String
  category : String
  oldCategory : Option String
  content : String
  media_url : Option String
  vertical : Option String
  footer : Option String
  allowTemplateCategoryChange : Bool
  example_ : Option String
  exampleHeader : Option String
  header : Option String
  enableSample : Bool
  provider_metadata : List (String × JVal)
  payload : List (String × JVal)
  org_id : String
  appId : String
  status : String
  created_at : String
  updated_at : String
  provider_template_id : Option String
  containerMeta : JVal
  buttonSupported : Option String
  createdOn : Option Int
  data : Option String
  elementName : Option String
  externalId : Option String
  internalCategory : Option String
  internalType : Option String
  languagePolicy : Option String
  meta : Option String
  namespace_ : Option String
  modifiedOn : Option Int
  priority : Int
  quality : Option String
  retry : Int
  stage : Option String
  wabaId : Option String
  errorMessageMeta : List (String × JVal)
  isDeleted : String
  hash : Option String
  webhookMeta : List (Option String × JVal)
  pk : Option Nat

def optStrJ : Option String → JVal
  | none => .jnull
  | some s => .jstr s

def optIntJ : Option Int → JVal
  | none => .jnull
  | some i => .jint i

/-- The dict built by `WhatsAppTemplate.generate_hash` (models.py
294-321), with its keys listed in the sorted order `sort_keys=True`
serializes them in (they are already alphabetical in the source). -/
def hashEntries (t : Template) : List (String × JVal) :=
  [("appId", .jstr t.appId),
   ("buttonSupported", optStrJ t.buttonSupported),
   ("category", .jstr t.category),
   ("containerMeta", t.containerMeta),
   ("createdOn", optIntJ t.createdOn),
   ("data", optStrJ t.data),
   ("elementName", optStrJ t.elementName),
   ("externalId", optStrJ t.externalId),
   ("id", optStrJ t.provider_template_id),
   ("internalCategory", optStrJ t.internalCategory),
   ("internalType", optStrJ t.internalType),
   ("languageCode", .jstr t.languageCode),
   ("languagePolicy", optStrJ t.languagePolicy),
   ("meta", optStrJ t.meta),
   ("modifiedOn", optIntJ t.modifiedOn),
   ("namespace", optStrJ t.namespace_),
   ("oldCategory", optStrJ t.oldCategory),
   ("priority", .jint t.priority),
   ("quality", optStrJ t.quality),
   ("retry", .jint t.retry),
   ("stage", optStrJ t.stage),
   ("status", .jstr t.status),
   ("templateType", .jstr t.templateType),
   ("wabaId", optStrJ t.wabaId)]

/-- `json.dumps(template_dict, sort_keys=True)` inside `generate_hash`. -/
def hashInput (t : Template) : String := dumps (.jobj (hashEntries t))

/-- `WhatsAppTemplate.generate_hash` (models.py 294-323). -/
def generate_hash (t : Template) : String := md5HexUtf8 (hashInput t)

/-- `WhatsAppTemplate.save` (models.py 325-328): recomputes `hash` from
the current field values before persisting. -/
def modelSave (t : Template) : Template := { t with hash := some (generate_hash t) }

/-- A concrete record used by the witness theorems. -/
def sampleTemplate : Template where
  templateType := "TEXT"
  languageCode := "en"
  category := "MARKETING"
  oldCategory := none
  content := "Hi {{1}}."
  media_url := none
  vertical := none
  footer := none
  allowTemplateCategoryChange := false
  example_ := none
  exampleHeader := none
  header := none
  enableSample := false
  provider_metadata := []
  payload := []
  org_id := "org-1"
  appId := "app-1"
  status := "draft"
  created_at := ""
  updated_at := ""
  provider_template_id := some "abc123"
  containerMeta := .jobj [("data", .jstr "Hi {{1}}."), ("n", .jint 5)]
  buttonSupported := none
  createdOn := some 1760456761813
  data := some "Hi é 😀 \"x\"\n"
  elementName := some "otp_1"
  externalId := none
  internalCategory := none
  internalType := none
  languagePolicy := none
  meta := none
  namespace_ := none
  modifiedOn := none
  priority := 0
  quality := none
  retry := 0
  stage := none
  wabaId := none
  errorMessageMeta := []
  isDeleted := "none"
  hash := none
  webhookMeta := []
  pk := some 1


/-! ## A decoder for the serialization, used to prove that `dumps` is
injective on canonical values (hence that `generate_hash`'s input
determines, and is determined by, the 24 relevant fields). -/

def hexVal (c : Char) : Nat :=
  if c.toNat ≤ 57 then c.toNat - 48 else c.toNat - 87

/-- Read four hex digits, returning their value and the remainder. -/
def readHex4 : List Char → Option (Nat × List Char)
  | h1 :: h2 :: h3 :: h4 :: rest =>
    some (((hexVal h1 * 16 + hexVal h2) * 16 + hexVal h3) * 16 + hexVal h4, rest)
  | _ => none

/-- The one-letter escapes of `encChar`. -/
def escChar? (e : Char) : Option Char :=
  if e = '"' then some '"'
  else if e = '\\' then some '\\'
  else if e = 'b' then some (Char.ofNat 8)
  else if e = 't' then some (Char.ofNat 9)
  else if e = 'n' then some (Char.ofNat 10)
  else if e = 'f' then some (Char.ofNat 12)
  else if e = 'r' then some (Char.ofNat 13)
  else none

/-- Decode what follows `\u`: one BMP scalar value or a surrogate pair. -/
def decU (cs : List Char) : Option (Char × List Char) := do
  let (n, rest3) ← readHex4 cs
  if 55296 ≤ n ∧ n < 56320 then
    match rest3 with
    | b :: u :: rest3' =>
      if b = '\\' ∧ u = 'u' then do
        let (m, rest4) ← readHex4 rest3'
        if 56320 ≤ m ∧ m < 57344 then
          some (Char.ofNat (65536 + (n - 55296) * 1024 + (m - 56320)), rest4)
        else none
      else none
    | _ => none
  else if 56320 ≤ n ∧ n < 57344 then none
  else some (Char.ofNat n, rest3)

/-- Decode one (possibly escaped) character of a serialized string body;
inverse of `encChar`.  Returns the character and the unconsumed rest;
`none` on a closing quote or malformed escape. -/
def decOneChar : List Char → Option (Char × List Char)
  | [] => none
  | c :: rest =>
    if c = '"' then none
    else if c = '\\' then
      match rest with
      | [] => none
      | e :: rest2 =>
        if e = 'u' then decU rest2
        else
          match escChar? e with
          | some d => some (d, rest2)
          | none => none
    else some (c, rest)

theorem readHex4_len {cs r : List Char} {n : Nat}
    (h : readHex4 cs = some (n, r)) : r.length + 4 = cs.length := by
  unfold readHex4 at h
  split at h
  · cases h
    simp
  · cases h

theorem decU_len {cs r : List Char} {d : Char}
    (h : decU cs = some (d, r)) : r.length + 4 ≤ cs.length := by
  unfold decU at h
  rcases h1 : readHex4 cs with _ | ⟨n, rest3⟩ <;> rw [h1] at h
  · cases h
  · have hl1 := readHex4_len h1
    simp only [Option.bind_eq_bind, Option.some_bind] at h
    split_ifs at h with hs1 hs2
    · split at h
      · rename_i b u rest3'
        split_ifs at h with hbu
        rcases h2 : readHex4 rest3' with _ | ⟨m, rest4⟩ <;> rw [h2] at h
        · cases h
        · have hl2 := readHex4_len h2
          simp only [Option.bind_eq_bind, Option.some_bind] at h
          split_ifs at h with hm
          simp only [Option.some_inj, Prod.mk.injEq] at h
          obtain ⟨hd, hr⟩ := h
          subst hr
          simp only [List.length_cons] at hl1
          omega
      · cases h
    · cases h
      omega

theorem decOneChar_lt {cs rest' : List Char} {d : Char}
    (h : decOneChar cs = some (d, rest')) : rest'.length < cs.length := by
  match cs with
  | [] => cases h
  | c :: rest =>
    simp only [decOneChar] at h
    split_ifs at h with hq hb
    · match rest with
      | [] => cases h
      | e :: rest2 =>
        simp only at h
        split_ifs at h with hu
        · have := decU_len h
          simp only [List.length_cons]
          omega
        · split at h
          · simp only [Option.some_inj, Prod.mk.injEq] at h
            obtain ⟨-, rfl⟩ := h
            simp only [List.length_cons]
            omega
          · cases h
    · cases h
      simp

/-- Inverse of the escaping in `encChar`, scanning a string body up to
its closing quote. -/
def decStrAux (acc : List Char) (cs : List Char) : Option (String × List Char) :=
  match cs with
  | [] => none
  | c :: rest =>
    if c = '"' then some (String.mk acc.reverse, rest)
    else
      match h : decOneChar (c :: rest) with
      | some (d, rest') => decStrAux (d :: acc) rest'
      | none => none
termination_by cs.length
decreasing_by exact decOneChar_lt h

def decDigits : Nat → List Char → Nat × List Char
  | acc, c :: rest =>
    if c.isDigit then decDigits (acc * 10 + (c.toNat - 48)) rest else (acc, c :: rest)
  | acc, [] => (acc, [])

def decNum : List Char → Option (Int × List Char)
  | [] => none
  | c :: rest =>
    if c = '-' then
      match rest with
      | d :: _ =>
        if d.isDigit then
          let p := decDigits 0 rest
          some (-(p.1 : Int), p.2)
        else none
      | [] => none
    else if c.isDigit then
      let p := decDigits 0 (c :: rest)
      some ((p.1 : Int), p.2)
    else none

mutual

def decJ : Nat → List Char → Option (JVal × List Char)
  | 0, _ => none
  | fuel + 1, cs =>
    match cs with
    | [] => none
    | c :: cs' =>
      if c = '-' ∨ c.isDigit then (decNum cs).map (fun p => (.jint p.1, p.2))
      else if c = '"' then (decStrAux [] cs').map (fun p => (.jstr p.1, p.2))
      else if c = '[' then
        if cs'.head? = some ']' then some (.jarr [], cs'.tail)
        else (decArrItems fuel cs').map (fun p => (.jarr p.1, p.2))
      else if c = '{' then
        if cs'.head? = some '}' then some (.jobj [], cs'.tail)
        else (decObjItems fuel cs').map (fun p => (.jobj p.1, p.2))
      else
        match cs with
        | 'n' :: 'u' :: 'l' :: 'l' :: rest => some (.jnull, rest)
        | 't' :: 'r' :: 'u' :: 'e' :: rest => some (.jbool true, rest)
        | 'f' :: 'a' :: 'l' :: 's' :: 'e' :: rest => some (.jbool false, rest)
        | _ => none

def decArrItems : Nat → List Char → Option (List JVal × List Char)
  | 0, _ => none
  | fuel + 1, cs => do
    let (v, r) ← decJ fuel cs
    match r with
    | ']' :: rest => some ([v], rest)
    | ',' :: ' ' :: rest =>
      let (es, r2) ← decArrItems fuel rest
      some (v :: es, r2)
    | _ => none

def decObjItems : Nat → List Char → Option (List (String × JVal) × List Char)
  | 0, _ => none
  | fuel + 1, cs =>
    match cs with
    | '"' :: cs1 => do
      let (k, r1) ← decStrAux [] cs1
      match r1 with
      | ':' :: ' ' :: r2 => do
        let (v, r3) ← decJ fuel r2
        match r3 with
        | '}' :: rest => some ([(k, v)], rest)
        | ',' :: ' ' :: rest =>
          let (es, r4) ← decObjItems fuel rest
          some ((k, v) :: es, r4)
        | _ => none
      | _ => none
    | _ => none

end

mutual

def jsize : JVal → Nat
  | .jnull => 1
  | .jbool _ => 1
  | .jint _ => 1
  | .jstr _ => 1
  | .jarr es => 1 + jsizeA es
  | .jobj es => 1 + jsizeO es

def jsizeA : List JVal → Nat
  | [] => 0
  | e :: es => 1 + jsize e + jsizeA es

def jsizeO : List (String × JVal) → Nat
  | [] => 0
  | (_, v) :: es => 1 + jsize v + jsizeO es

end

/-- The follow-set condition needed after a serialized integer: the
remainder must not begin with a digit. -/
def dfree : List Char → Prop
  | [] => True
  | c :: _ => c.isDigit = false

/-! ### Roundtrip: the decoder inverts the serializer -/

theorem char_toNat_ofNat {n : Nat} (h : n.isValidChar) : (Char.ofNat n).toNat = n := by
  unfold Char.ofNat
  rw [dif_pos h]
  unfold Char.toNat
  simp [Char.ofNatAux, UInt32.toNat, BitVec.toNat_ofNatLt]

theorem char_eq_ofNat (c : Char) {n : Nat} (h : c.toNat = n) : c = Char.ofNat n := by
  rw [← h, Char.ofNat_toNat]

theorem char_range (c : Char) : c.toNat < 55296 ∨ (57343 < c.toNat ∧ c.toNat < 1114112) := by
  have h := c.valid
  unfold UInt32.isValidChar Nat.isValidChar at h
  exact h

theorem char_toNat_inj {c d : Char} (h : c.toNat = d.toNat) : c = d := by
  rw [char_eq_ofNat c h, Char.ofNat_toNat]

theorem hexVal_hexDigitChar : ∀ d, d < 16 → hexVal (hexDigitChar d) = d := by decide

theorem hex4_decode (n : Nat) (hn : n < 65536) :
    ((hexVal (hexDigitChar (n / 4096 % 16)) * 16 + hexVal (hexDigitChar (n / 256 % 16))) * 16 +
        hexVal (hexDigitChar (n / 16 % 16))) * 16 + hexVal (hexDigitChar (n % 16)) = n := by
  rw [hexVal_hexDigitChar _ (by omega), hexVal_hexDigitChar _ (by omega),
    hexVal_hexDigitChar _ (by omega), hexVal_hexDigitChar _ (by omega)]
  omega

theorem readHex4_hex4 (n : Nat) (hn : n < 65536) (rest : List Char) :
    readHex4 (hex4 n ++ rest) = some (n, rest) := by
  simp only [hex4, List.cons_append, List.nil_append, readHex4]
  rw [hex4_decode n hn]

theorem decU_bmp (n : Nat) (hn : n < 65536) (hs : ¬(55296 ≤ n ∧ n < 57344)) (rest : List Char) :
    decU (hex4 n ++ rest) = some (Char.ofNat n, rest) := by
  unfold decU
  rw [readHex4_hex4 n hn]
  simp only [Option.bind_eq_bind, Option.some_bind]
  rw [if_neg (by omega), if_neg (by omega)]

theorem decU_astral (v : Nat) (hv : v < 1048576) (rest : List Char) :
    decU (hex4 (55296 + v / 1024) ++ '\\' :: 'u' :: (hex4 (56320 + v % 1024) ++ rest)) =
      some (Char.ofNat (65536 + v), rest) := by
  unfold decU
  rw [readHex4_hex4 _ (by omega)]
  simp only [Option.bind_eq_bind, Option.some_bind]
  rw [if_pos (by constructor <;> omega)]
  rw [if_pos (by simp)]
  rw [readHex4_hex4 _ (by omega)]
  simp only [Option.bind_eq_bind, Option.some_bind]
  rw [if_pos (by constructor <;> omega)]
  have harith : 65536 + (55296 + v / 1024 - 55296) * 1024 + (56320 + v % 1024 - 56320) =
      65536 + v := by omega
  rw [harith]

theorem decOneChar_encChar (c : Char) (more : List Char) :
    decOneChar (encChar c ++ more) = some (c, more) := by
  have hrange := char_range c
  unfold encChar
  by_cases hq : c = '"'
  · subst hq
    simp [decOneChar, escChar?]
  · rw [if_neg hq]
    by_cases hbs : c = '\\'
    · subst hbs
      simp [decOneChar, escChar?]
    · rw [if_neg hbs]
      by_cases h8 : c.toNat = 8
      · rw [if_pos h8]
        simp [decOneChar, escChar?]
        rw [char_eq_ofNat c h8]
      · rw [if_neg h8]
        by_cases h9 : c.toNat = 9
        · rw [if_pos h9]
          simp [decOneChar, escChar?]
          rw [char_eq_ofNat c h9]
        · rw [if_neg h9]
          by_cases h10 : c.toNat = 10
          · rw [if_pos h10]
            simp [decOneChar, escChar?]
            rw [char_eq_ofNat c h10]
          · rw [if_neg h10]
            by_cases h12 : c.toNat = 12
            · rw [if_pos h12]
              simp [decOneChar, escChar?]
              rw [char_eq_ofNat c h12]
            · rw [if_neg h12]
              by_cases h13 : c.toNat = 13
              · rw [if_pos h13]
                simp [decOneChar, escChar?]
                rw [char_eq_ofNat c h13]
              · rw [if_neg h13]
                by_cases h32 : c.toNat < 32
                · rw [if_pos h32]
                  simp only [decOneChar, List.cons_append]
                  norm_num
                  rw [decU_bmp c.toNat (by omega) (by omega)]
                  refine ⟨by decide, ?_⟩
                  rw [Char.ofNat_toNat]
                · rw [if_neg h32]
                  by_cases h127 : c.toNat < 127
                  · rw [if_pos h127]
                    simp only [List.cons_append, List.nil_append, decOneChar]
                    rw [if_neg hq, if_neg hbs]
                  · rw [if_neg h127]
                    by_cases hbmp : c.toNat < 65536
                    · rw [if_pos hbmp]
                      simp only [decOneChar, List.cons_append]
                      norm_num
                      rw [decU_bmp c.toNat (by omega)
                        (by rcases hrange with h | h <;> omega)]
                      refine ⟨by decide, ?_⟩
                      rw [Char.ofNat_toNat]
                    · rw [if_neg hbmp]
                      simp only [decOneChar, List.cons_append, List.append_assoc]
                      norm_num
                      rw [decU_astral (c.toNat - 65536)
                        (by rcases hrange with h | h <;> omega)]
                      have h65 : 65536 + (c.toNat - 65536) = c.toNat := by omega
                      refine ⟨by decide, ?_⟩
                      rw [h65, Char.ofNat_toNat]

theorem string_mk_data (s : String) : String.mk s.data = s := rfl

theorem encChar_head (c : Char) : ∃ c0 t, encChar c = c0 :: t ∧ ¬c0 = '"' := by
  unfold encChar
  by_cases hq : c = '"'
  · rw [if_pos hq]
    exact ⟨_, _, rfl, by decide⟩
  · rw [if_neg hq]
    by_cases hbs : c = '\\'
    · rw [if_pos hbs]
      exact ⟨_, _, rfl, by decide⟩
    · rw [if_neg hbs]
      by_cases h8 : c.toNat = 8
      · rw [if_pos h8]
        exact ⟨_, _, rfl, by decide⟩
      · rw [if_neg h8]
        by_cases h9 : c.toNat = 9
        · rw [if_pos h9]
          exact ⟨_, _, rfl, by decide⟩
        · rw [if_neg h9]
          by_cases h10 : c.toNat = 10
          · rw [if_pos h10]
            exact ⟨_, _, rfl, by decide⟩
          · rw [if_neg h10]
            by_cases h12 : c.toNat = 12
            · rw [if_pos h12]
              exact ⟨_, _, rfl, by decide⟩
            · rw [if_neg h12]
              by_cases h13 : c.toNat = 13
              · rw [if_pos h13]
                exact ⟨_, _, rfl, by decide⟩
              · rw [if_neg h13]
                by_cases h32 : c.toNat < 32
                · rw [if_pos h32]
                  exact ⟨_, _, rfl, by decide⟩
                · rw [if_neg h32]
                  by_cases h127 : c.toNat < 127
                  · rw [if_pos h127]
                    exact ⟨c, [], rfl, hq⟩
                  · rw [if_neg h127]
                    by_cases hbmp : c.toNat < 65536
                    · rw [if_pos hbmp]
                      exact ⟨_, _, rfl, by decide⟩
                    · rw [if_neg hbmp]
                      exact ⟨'\\', 'u' :: (hex4 (55296 + (c.toNat - 65536) / 1024) ++
                        '\\' :: 'u' :: hex4 (56320 + (c.toNat - 65536) % 1024)), by simp, by decide⟩

theorem decStrAux_step (acc : List Char) {c0 : Char} {X : List Char} (hq : ¬c0 = '"')
    {d : Char} {rest' : List Char} (hdec : decOneChar (c0 :: X) = some (d, rest')) :
    decStrAux acc (c0 :: X) = decStrAux (d :: acc) rest' := by
  rw [decStrAux, if_neg hq]
  split
  · rename_i d2 rest2 heq
    rw [hdec] at heq
    simp only [Option.some_inj, Prod.mk.injEq] at heq
    rw [heq.1, heq.2]
  · rename_i heq
    rw [hdec] at heq
    cases heq

theorem decStrAux_enc (cs : List Char) (acc more : List Char) :
    decStrAux acc (cs.flatMap encChar ++ '"' :: more) =
      some (String.mk (acc.reverse ++ cs), more) := by
  induction cs generalizing acc with
  | nil =>
    simp only [List.flatMap_nil, List.nil_append]
    rw [decStrAux]
    simp
  | cons c cs ih =>
    obtain ⟨c0, t, hc, hq⟩ := encChar_head c
    have hdec : decOneChar (c0 :: (t ++ (cs.flatMap encChar ++ '"' :: more))) =
        some (c, cs.flatMap encChar ++ '"' :: more) := by
      rw [← List.cons_append, ← hc]
      exact decOneChar_encChar c _
    rw [List.flatMap_cons, List.append_assoc, hc, List.cons_append]
    rw [decStrAux_step acc hq hdec, ih]
    simp

theorem decStrAux_encStr (s : String) (more : List Char) :
    decStrAux [] (s.data.flatMap encChar ++ '"' :: more) = some (s, more) := by
  rw [decStrAux_enc]
  simp [string_mk_data]

theorem digitChar_isDigit (n : Nat) : (digitChar n).isDigit = true := by
  unfold digitChar
  have h : n % 10 < 10 := Nat.mod_lt _ (by omega)
  set m := n % 10 with hm
  interval_cases m <;> decide

theorem digitChar_toNat (n : Nat) : (digitChar n).toNat = 48 + n % 10 := by
  unfold digitChar
  have h : n % 10 < 10 := Nat.mod_lt _ (by omega)
  set m := n % 10 with hm
  interval_cases m <;> decide

theorem isDigit_ne {d x : Char} (hd : d.isDigit = true) (hx : x.isDigit = false) : ¬d = x := by
  intro h
  rw [h] at hd
  rw [hd] at hx
  cases hx

theorem natRepr_cons (n : Nat) : ∃ c t, natRepr n = c :: t ∧ c.isDigit = true := by
  induction n using Nat.strong_induction_on with
  | _ n ih =>
    rw [natRepr_eq]
    split
    · exact ⟨_, _, rfl, digitChar_isDigit n⟩
    · rename_i h
      obtain ⟨c, t, hc, hd⟩ := ih (n / 10) (Nat.div_lt_self (by omega) (by omega))
      exact ⟨c, t ++ [digitChar (n % 10)], by rw [hc]; rfl, hd⟩

theorem decDigits_step (acc : Nat) (n : Nat) (rest : List Char) :
    decDigits acc (digitChar n :: rest) = decDigits (acc * 10 + n % 10) rest := by
  rw [decDigits]
  rw [if_pos (digitChar_isDigit n)]
  rw [digitChar_toNat]
  congr 1
  omega

theorem decDigits_stop (acc : Nat) {rest : List Char} (h : dfree rest) :
    decDigits acc rest = (acc, rest) := by
  match rest with
  | [] => rfl
  | c :: r =>
    rw [decDigits]
    rw [if_neg (by simp [dfree] at h; simp [h])]

theorem decDigits_natRepr (n : Nat) (acc : Nat) (rest : List Char) :
    decDigits acc (natRepr n ++ rest) =
      decDigits (acc * 10 ^ (natRepr n).length + n) rest := by
  induction n using Nat.strong_induction_on generalizing acc rest with
  | _ n ih =>
    by_cases h : n < 10
    · conv_lhs => rw [natRepr_eq, if_pos h]
      conv_rhs => rw [natRepr_eq, if_pos h]
      rw [List.cons_append, decDigits_step]
      congr 1
      simp only [List.length_cons, List.length_nil]
      omega
    · conv_lhs => rw [natRepr_eq, if_neg h]
      conv_rhs => rw [natRepr_eq, if_neg h]
      rw [List.append_assoc, ih (n / 10) (Nat.div_lt_self (by omega) (by omega)) acc _]
      rw [List.cons_append, List.nil_append, decDigits_step]
      congr 1
      simp only [List.length_append, List.length_cons, List.length_nil]
      rw [pow_succ]
      have hmd : n % 10 + 10 * (n / 10) = n := Nat.mod_add_div n 10
      set L := (natRepr (n / 10)).length
      set P := 10 ^ L
      ring_nf
      omega

theorem decNum_natRepr (n : Nat) {rest : List Char} (h : dfree rest) :
    decNum (natRepr n ++ rest) = some ((n : Int), rest) := by
  obtain ⟨c, t, hc, hd⟩ := natRepr_cons n
  rw [hc, List.cons_append]
  simp only [decNum]
  rw [if_neg (isDigit_ne hd (by decide))]
  rw [if_pos hd]
  rw [← List.cons_append, ← hc, decDigits_natRepr, decDigits_stop _ h]
  simp

theorem decNum_intRepr (i : Int) {rest : List Char} (h : dfree rest) :
    decNum (intRepr i ++ rest) = some (i, rest) := by
  unfold intRepr
  by_cases hneg : i < 0
  · rw [if_pos hneg]
    obtain ⟨c, t, hc, hd⟩ := natRepr_cons (-i).toNat
    rw [List.cons_append]
    simp only [decNum, if_true]
    rw [hc, List.cons_append]
    simp only [hd, if_true]
    rw [← List.cons_append, ← hc, decDigits_natRepr, decDigits_stop _ h]
    simp only [Option.some_inj, Prod.mk.injEq]
    constructor
    · push_cast
      omega
    · trivial
  · rw [if_neg hneg]
    rw [decNum_natRepr _ h]
    simp only [Option.some_inj, Prod.mk.injEq, and_true]
    omega

theorem jsize_pos (v : JVal) : 1 ≤ jsize v := by
  match v with
  | .jnull | .jbool _ | .jint _ | .jstr _ => simp [jsize]
  | .jarr es => simp [jsize]
  | .jobj es => simp [jsize]

theorem intRepr_cons (i : Int) :
    ∃ c t, intRepr i = c :: t ∧ (c = '-' ∨ c.isDigit = true) := by
  unfold intRepr
  by_cases hneg : i < 0
  · rw [if_pos hneg]
    exact ⟨'-', _, rfl, Or.inl rfl⟩
  · rw [if_neg hneg]
    obtain ⟨c, t, hc, hd⟩ := natRepr_cons i.toNat
    exact ⟨c, t, hc, Or.inr hd⟩

theorem encJ_cons (v : JVal) :
    ∃ c0 t, encJ v = c0 :: t ∧ ¬c0 = ']' ∧ ¬c0 = '}' := by
  match v with
  | .jnull => exact ⟨'n', _, rfl, by decide, by decide⟩
  | .jbool true => exact ⟨'t', _, rfl, by decide, by decide⟩
  | .jbool false => exact ⟨'f', _, rfl, by decide, by decide⟩
  | .jint i =>
    obtain ⟨c, t, hc, hd⟩ := intRepr_cons i
    refine ⟨c, t, hc, ?_, ?_⟩
    · rcases hd with rfl | hd
      · decide
      · exact isDigit_ne hd (by decide)
    · rcases hd with rfl | hd
      · decide
      · exact isDigit_ne hd (by decide)
  | .jstr s => exact ⟨'"', _, rfl, by decide, by decide⟩
  | .jarr es => exact ⟨'[', _, rfl, by decide, by decide⟩
  | .jobj es => exact ⟨'{', _, rfl, by decide, by decide⟩

theorem decJ_enc_all : ∀ fuel : Nat,
    (∀ v rest, canon v = true → jsize v < fuel → dfree rest →
      decJ fuel (encJ v ++ rest) = some (v, rest)) ∧
    (∀ e es rest, canon (.jarr (e :: es)) = true → jsizeA (e :: es) < fuel →
      decArrItems fuel (encArr (e :: es) ++ rest) = some (e :: es, rest)) ∧
    (∀ k v es rest, canon (.jobj ((k, v) :: es)) = true → jsizeO ((k, v) :: es) < fuel →
      decObjItems fuel (encObj ((k, v) :: es) ++ rest) = some ((k, v) :: es, rest)) := by
  intro fuel
  induction fuel with
  | zero =>
    exact ⟨fun v rest _ hs _ => absurd hs (by omega),
      fun e es rest _ hs => absurd hs (by omega),
      fun k v es rest _ hs => absurd hs (by omega)⟩
  | succ fuel ih =>
    obtain ⟨ih1, ih2, ih3⟩ := ih
    refine ⟨?_, ?_, ?_⟩
    · intro v rest hc hs hd
      match v with
      | .jnull =>
        simp [encJ, decJ]
      | .jbool true =>
        simp [encJ, decJ]
      | .jbool false =>
        simp [encJ, decJ]
      | .jint i =>
        obtain ⟨c0, t, hc0, hd0⟩ := intRepr_cons i
        simp only [encJ]
        rw [hc0, List.cons_append]
        simp only [decJ]
        rw [if_pos (by
          rcases hd0 with rfl | hdig
          · simp
          · simp [hdig])]
        rw [← List.cons_append, ← hc0, decNum_intRepr i hd]
        rfl
      | .jstr s =>
        simp only [encJ, encStr, List.cons_append, List.append_assoc, List.cons_append,
          List.nil_append]
        simp [decJ, decStrAux_encStr]
      | .jarr [] =>
        simp [encJ, encArr, decJ]
      | .jarr (e :: es) =>
        simp only [encJ, List.cons_append]
        simp only [decJ]
        rw [if_neg (by decide), if_neg (by decide), if_pos (trivial : True)]
        obtain ⟨c0, t, hc0, hnb, -⟩ := encJ_cons e
        have hhd : (encArr (e :: es) ++ rest).head? = some c0 := by
          cases es <;> simp [encArr, hc0]
        rw [if_neg (by simp [hhd, hnb])]
        rw [ih2 e es rest (by simpa [canon] using hc)
          (by simp [jsize, jsizeA, jsizeO] at hs ⊢ <;> omega)]
        rfl
      | .jobj [] =>
        simp [encJ, encObj, decJ]
      | .jobj ((k, v) :: es) =>
        simp only [encJ, List.cons_append]
        simp only [decJ]
        rw [if_neg (by decide), if_neg (by decide), if_neg (by decide), if_pos (trivial : True)]
        have hhd : (encObj ((k, v) :: es) ++ rest).head? = some '"' := by
          cases es <;> simp [encObj, encStr]
        rw [if_neg (by simp [hhd])]
        rw [ih3 k v es rest hc (by simp [jsize, jsizeA, jsizeO] at hs ⊢ <;> omega)]
        rfl
    · intro e es rest hc hs
      have hcanon : canon e = true ∧ canon (JVal.jarr es) = true := by
        simpa [canon, Bool.and_eq_true] using hc
      match es with
      | [] =>
        simp only [encArr, List.append_assoc, List.cons_append, List.nil_append]
        simp only [decArrItems]
        rw [ih1 e (']' :: rest) hcanon.1 (by simp [jsizeA] at hs ⊢ <;> omega) (by simp [dfree])]
        simp
      | e2 :: es2 =>
        simp only [encArr, List.append_assoc, List.cons_append, List.nil_append]
        simp only [decArrItems]
        rw [ih1 e (',' :: ' ' :: (encArr (e2 :: es2) ++ rest)) hcanon.1
          (by simp [jsizeA] at hs ⊢ <;> omega) (by simp [dfree])]
        simp only [Option.bind_eq_bind, Option.some_bind]
        rw [ih2 e2 es2 rest hcanon.2 (by simp [jsizeA] at hs ⊢ <;> omega)]
        simp
    · intro k v es rest hc hs
      have hck : canon v = true ∧ canon (JVal.jobj es) = true := by
        match es with
        | [] => simpa [canon] using hc
        | (k2, v2) :: es2 =>
          simp only [canon, Bool.and_eq_true] at hc
          exact ⟨hc.1.2, hc.2⟩
      match es with
      | [] =>
        simp only [encObj, encStr, List.append_assoc, List.cons_append, List.nil_append]
        simp only [decObjItems]
        rw [decStrAux_encStr k (':' :: ' ' :: (encJ v ++ '}' :: rest))]
        simp only [Option.bind_eq_bind, Option.some_bind]
        rw [ih1 v ('}' :: rest) hck.1 (by simp [jsizeO] at hs ⊢ <;> omega) (by simp [dfree])]
        simp
      | (k2, v2) :: es2 =>
        simp only [encObj, encStr, List.append_assoc, List.cons_append, List.nil_append]
        simp only [decObjItems]
        rw [decStrAux_encStr k
          (':' :: ' ' :: (encJ v ++ ',' :: ' ' :: (encObj ((k2, v2) :: es2) ++ rest)))]
        simp only [Option.bind_eq_bind, Option.some_bind]
        rw [ih1 v (',' :: ' ' :: (encObj ((k2, v2) :: es2) ++ rest)) hck.1
          (by simp [jsizeO] at hs ⊢ <;> omega) (by simp [dfree])]
        simp only [Option.bind_eq_bind, Option.some_bind]
        rw [ih3 k2 v2 es2 rest hck.2 (by simp [jsizeO] at hs ⊢ <;> omega)]
        simp

theorem dumps_inj {v1 v2 : JVal} (h1 : canon v1 = true) (h2 : canon v2 = true)
    (h : dumps v1 = dumps v2) : v1 = v2 := by
  have he : encJ v1 = encJ v2 := by
    have hd := congrArg String.data h
    simpa [dumps] using hd
  have d1 := (decJ_enc_all (jsize v1 + jsize v2 + 1)).1 v1 [] h1 (by omega) trivial
  have d2 := (decJ_enc_all (jsize v1 + jsize v2 + 1)).1 v2 [] h2 (by omega) trivial
  rw [List.append_nil] at d1 d2
  rw [he, d2] at d1
  simpa using d1.symm

theorem canon_optStrJ (x : Option String) : canon (optStrJ x) = true := by
  cases x <;> simp [optStrJ, canon]

theorem canon_optIntJ (x : Option Int) : canon (optIntJ x) = true := by
  cases x <;> simp [optIntJ, canon]

theorem optStrJ_inj {a b : Option String} : optStrJ a = optStrJ b ↔ a = b := by
  cases a <;> cases b <;> simp [optStrJ]

theorem optIntJ_inj {a b : Option Int} : optIntJ a = optIntJ b ↔ a = b := by
  cases a <;> cases b <;> simp [optIntJ]

theorem canon_hashEntries (t : Template) (h : canon t.containerMeta = true) :
    canon (JVal.jobj (hashEntries t)) = true := by
  simp only [hashEntries, canon, Bool.and_eq_true, canon_optStrJ, canon_optIntJ, h,
    and_true, true_and]
  decide

/-- Equality of the 24 provider-relevant fields hashed by
`WhatsAppTemplate.generate_hash`. -/
def relevantEq (t1 t2 : Template) : Prop :=
  t1.appId = t2.appId ∧ t1.buttonSupported = t2.buttonSupported ∧ t1.category = t2.category ∧
  t1.containerMeta = t2.containerMeta ∧ t1.createdOn = t2.createdOn ∧ t1.data = t2.data ∧
  t1.elementName = t2.elementName ∧ t1.externalId = t2.externalId ∧
  t1.provider_template_id = t2.provider_template_id ∧
  t1.internalCategory = t2.internalCategory ∧ t1.internalType = t2.internalType ∧
  t1.languageCode = t2.languageCode ∧ t1.languagePolicy = t2.languagePolicy ∧
  t1.meta = t2.meta ∧ t1.modifiedOn = t2.modifiedOn ∧ t1.namespace_ = t2.namespace_ ∧
  t1.oldCategory = t2.oldCategory ∧ t1.priority = t2.priority ∧ t1.quality = t2.quality ∧
  t1.retry = t2.retry ∧ t1.stage = t2.stage ∧ t1.status = t2.status ∧
  t1.templateType = t2.templateType ∧ t1.wabaId = t2.wabaId

/-- Simultaneous update of every field `generate_hash` does not read. -/
def setIrrelevant (t : Template) (content : String) (media_url vertical footer : Option String)
    (allowChange : Bool) (ex exh hdr : Option String) (enableSample : Bool)
    (pm pl em : List (String × JVal)) (org : String) (cat upd : String) (isDel : String)
    (hsh : Option String) (wm : List (Option String × JVal)) (pk : Option Nat) : Template :=
  { t with
    content := content, media_url := media_url, vertical := vertical, footer := footer,
    allowTemplateCategoryChange := allowChange, example_ := ex, exampleHeader := exh,
    header := hdr, enableSample := enableSample, provider_metadata := pm, payload := pl,
    errorMessageMeta := em, org_id := org, created_at := cat, updated_at := upd,
    isDeleted := isDel, hash := hsh, webhookMeta := wm, pk := pk }

/-- **C1.**  `WhatsAppTemplate.generate_hash` (models.py 294-323) depends on
exactly the 24 provider-relevant fields it serializes: templates agreeing on
those fields hash identically; every field outside the set (content,
media_url, payload, errorMessageMeta, webhookMeta, isDeleted, timestamps,
org key, ...) can change simultaneously without changing the digest; and the
serialized hash input is *injective* in the 24-field tuple, so a change to
any single relevant field changes the digest up to an MD5 collision (the
`canon` hypotheses say the `containerMeta` JSON objects are in canonical
dict form, i.e. genuinely different dicts, not re-orderings). -/
theorem c1_generate_hash_depends_exactly_on_relevant_fields (t1 t2 : Template)
    (h1 : canon t1.containerMeta = true) (h2 : canon t2.containerMeta = true) :
    (relevantEq t1 t2 ↔ hashInput t1 = hashInput t2) ∧
    (relevantEq t1 t2 → generate_hash t1 = generate_hash t2) ∧
    (∀ content media_url vertical footer allowChange ex exh hdr enableSample pm pl em org
        cat upd isDel hsh wm pk,
      generate_hash (setIrrelevant t1 content media_url vertical footer allowChange ex exh hdr
        enableSample pm pl em org cat upd isDel hsh wm pk) = generate_hash t1) := by
  have hfwd : relevantEq t1 t2 → hashInput t1 = hashInput t2 := by
    intro h
    obtain ⟨e1, e2, e3, e4, e5, e6, e7, e8, e9, e10, e11, e12, e13, e14, e15, e16, e17,
      e18, e19, e20, e21, e22, e23, e24⟩ := h
    unfold hashInput hashEntries
    rw [e1, e2, e3, e4, e5, e6, e7, e8, e9, e10, e11, e12, e13, e14, e15, e16, e17, e18,
      e19, e20, e21, e22, e23, e24]
  refine ⟨⟨hfwd, ?_⟩, fun h => by unfold generate_hash; rw [hfwd h], ?_⟩
  · intro h
    have hj := dumps_inj (canon_hashEntries t1 h1) (canon_hashEntries t2 h2) h
    have hent := hj
    simp only [JVal.jobj.injEq, hashEntries, List.cons.injEq, Prod.mk.injEq, true_and,
      and_true, JVal.jstr.injEq, JVal.jint.injEq, optStrJ_inj, optIntJ_inj] at hent
    unfold relevantEq
    tauto
  · intro content media_url vertical footer allowChange ex exh hdr enableSample pm pl em org
      cat upd isDel hsh wm pk
    rfl

theorem c1_generate_hash_witness :
    canon sampleTemplate.containerMeta = true ∧
    (relevantEq sampleTemplate sampleTemplate ↔
      hashInput sampleTemplate = hashInput sampleTemplate) ∧
    generate_hash (setIrrelevant sampleTemplate "changed content" (some "https://x/y.png")
      none none true none none none true [] [] [] "other-org" "" "" "Deleted" none [] none) =
      generate_hash sampleTemplate :=
  ⟨by simp [sampleTemplate, canon]; decide,
    (c1_generate_hash_depends_exactly_on_relevant_fields sampleTemplate sampleTemplate
      (by simp [sampleTemplate, canon]; decide) (by simp [sampleTemplate, canon]; decide)).1,
    (c1_generate_hash_depends_exactly_on_relevant_fields sampleTemplate sampleTemplate
      (by simp [sampleTemplate, canon]; decide)
      (by simp [sampleTemplate, canon]; decide)).2.2 "changed content" (some "https://x/y.png")
      none none true none none none true [] [] [] "other-org" "" "" "Deleted" none [] none⟩


/-! ## Remote records and the Gupshup sync
(`GupshupProvider.get_templates` / `sync_templates` / `parse_container_meta`,
providers/gupshup.py 409-630, and the bulk commit in
`sync_templates_for_app_id`, tasks.py 92-98)

A remote template record (one entry of the provider's `templates` array) is
a JSON object, modelled as a canonical association list.  `tpl.get(k)` is
`rget`; the typed getters mirror the Python attribute assignments and are
faithful for well-typed provider payloads (string/int fields carrying
strings/ints — the `WTRemote` hypothesis); Python `None` and an absent key
both map to `none`. -/

def RemoteTpl := List (String × JVal)

def rget (tpl : RemoteTpl) (k : String) : Option JVal :=
  (tpl.find? (fun e => e.1 = k)).map Prod.snd

def rgetS (tpl : RemoteTpl) (k : String) : Option String :=
  match rget tpl k with
  | some (.jstr s) => some s
  | _ => none

def rgetI (tpl : RemoteTpl) (k : String) : Option Int :=
  match rget tpl k with
  | some (.jint i) => some i
  | _ => none

def rgetJ (tpl : RemoteTpl) (k : String) : JVal :=
  (rget tpl k).getD .jnull

/-- Python truthiness of a JSON value. -/
def jTruthy : JVal → Bool
  | .jnull => false
  | .jbool b => b
  | .jint i => !(i = 0)
  | .jstr s => !(s = "")
  | .jarr es => !es.isEmpty
  | .jobj es => !es.isEmpty

def jget (v : JVal) (k : String) : Option JVal :=
  match v with
  | .jobj es => rget es k
  | _ => none

/-- The remote payload is well-typed: the fields assigned into non-nullable
columns are present with the right shapes. -/
def WTRemote (tpl : RemoteTpl) : Prop :=
  (∃ s, rgetS tpl "appId" = some s) ∧ (∃ s, rgetS tpl "category" = some s) ∧
  (∃ s, rgetS tpl "languageCode" = some s) ∧ (∃ s, rgetS tpl "status" = some s) ∧
  (∃ s, rgetS tpl "templateType" = some s) ∧
  (∃ i, rgetI tpl "priority" = some i) ∧ (∃ i, rgetI tpl "retry" = some i)

/-- The nine conditional field updates of `parse_container_meta`
(gupshup.py 604-630), one definition per `if containerMeta_json.get(k):`
block of the source. -/
def pcmData (cj : JVal) (t : Template) : Template :=
  match jget cj "data" with
  | some (.jstr s) => if s = "" then t else { t with content := s }
  | _ => t

def pcmButtons (cj : JVal) (t : Template) : Template :=
  match jget cj "buttons" with
  | some bv => if jTruthy bv then { t with payload := [("buttons", bv)] } else t
  | none => t

def pcmHeader (cj : JVal) (t : Template) : Template :=
  match jget cj "header" with
  | some (.jstr s) => if s = "" then t else { t with header := some s }
  | _ => t

def pcmFooter (cj : JVal) (t : Template) : Template :=
  match jget cj "footer" with
  | some (.jstr s) => if s = "" then t else { t with footer := some s }
  | _ => t

def pcmSampleText (cj : JVal) (t : Template) : Template :=
  match jget cj "sampleText" with
  | some (.jstr s) => if s = "" then t else { t with example_ := some s }
  | _ => t

def pcmSampleHeader (cj : JVal) (t : Template) : Template :=
  match jget cj "sampleHeader" with
  | some (.jstr s) => if s = "" then t else { t with exampleHeader := some s }
  | _ => t

def pcmEnableSample (cj : JVal) (t : Template) : Template :=
  match jget cj "enableSample" with
  | some (.jbool b) => if b then { t with enableSample := b } else t
  | _ => t

def pcmAllowChange (cj : JVal) (t : Template) : Template :=
  match jget cj "allowTemplateCategoryChange" with
  | some (.jbool b) => if b then { t with allowTemplateCategoryChange := b } else t
  | _ => t

def pcmCorrectCategory (cj : JVal) (t : Template) : Template :=
  match jget cj "correctCategory" with
  | some (.jstr s) => if s = "" then t else { t with category := s }
  | _ => t

/-- `GupshupProvider.parse_container_meta` (gupshup.py 587-630): accepts a
pre-parsed dict or a JSON string (decoded with the JSON grammar of
`json.dumps`; a malformed string is logged and skipped, returning the
object unchanged; so is a non-dict value, whose attribute access would
fault in Python). -/
def parse_container_meta (containerMeta : JVal) (t : Template) : Template :=
  let parsed : Option JVal :=
    match containerMeta with
    | .jobj es => some (.jobj es)
    | .jstr s =>
      match decJ (s.length + 1) s.data with
      | some (v, []) => some v
      | _ => none
    | _ => none
  match parsed with
  | some cj =>
    pcmCorrectCategory cj (pcmAllowChange cj (pcmEnableSample cj (pcmSampleHeader cj
      (pcmSampleText cj (pcmFooter cj (pcmHeader cj (pcmButtons cj (pcmData cj t))))))))
  | none => t

/-- `GupshupProvider.sync_templates` (gupshup.py 514-585): stage an update of
the existing record when the stored hash differs from the hash of the raw
remote record, else return it unchanged; stage a fresh record when there is
no local match.  `ts` stands for `str(datetime.now().timestamp())`. -/
def sync_templates (org_id : String) (tpl : RemoteTpl) (tpl_hash : String)
    (template_obj : Option Template) (ts : String) : Template :=
  match template_obj with
  | some tobj =>
    if tobj.hash ≠ some tpl_hash then
      let updated : Template :=
        { tobj with
          hash := some tpl_hash
          appId := (rgetS tpl "appId").getD ""
          org_id := org_id
          buttonSupported := rgetS tpl "buttonSupported"
          category := (rgetS tpl "category").getD ""
          containerMeta := rgetJ tpl "containerMeta"
          createdOn := rgetI tpl "createdOn"
          data := rgetS tpl "data"
          elementName := rgetS tpl "elementName"
          externalId := rgetS tpl "externalId"
          provider_template_id := rgetS tpl "id"
          internalCategory := rgetS tpl "internalCategory"
          internalType := rgetS tpl "internalType"
          languageCode := (rgetS tpl "languageCode").getD ""
          languagePolicy := rgetS tpl "languagePolicy"
          meta := rgetS tpl "meta"
          modifiedOn := rgetI tpl "modifiedOn"
          namespace_ := rgetS tpl "namespace"
          oldCategory := rgetS tpl "oldCategory"
          priority := (rgetI tpl "priority").getD 0
          quality := rgetS tpl "quality"
          retry := (rgetI tpl "retry").getD 0
          stage := rgetS tpl "stage"
          status := (rgetS tpl "status").getD ""
          templateType := (rgetS tpl "templateType").getD ""
          wabaId := rgetS tpl "wabaId"
          provider_metadata := ("last_update", .jstr ts) ::
            tobj.provider_metadata.filter (fun e => ¬e.1 = "last_update") }
      if jTruthy (rgetJ tpl "containerMeta") then
        parse_container_meta (rgetJ tpl "containerMeta") updated
      else updated
    else tobj
  | none =>
    let fresh : Template :=
      { templateType := (rgetS tpl "templateType").getD ""
        languageCode := (rgetS tpl "languageCode").getD ""
        category := (rgetS tpl "category").getD ""
        oldCategory := rgetS tpl "oldCategory"
        content := ""
        media_url := none
        vertical := none
        footer := none
        allowTemplateCategoryChange := false
        example_ := none
        exampleHeader := none
        header := none
        enableSample := false
        provider_metadata := []
        payload := []
        org_id := org_id
        appId := (rgetS tpl "appId").getD ""
        status := (rgetS tpl "status").getD ""
        created_at := ts
        updated_at := ts
        provider_template_id := rgetS tpl "id"
        containerMeta := rgetJ tpl "containerMeta"
        buttonSupported := rgetS tpl "buttonSupported"
        createdOn := rgetI tpl "createdOn"
        data := rgetS tpl "data"
        elementName := rgetS tpl "elementName"
        externalId := rgetS tpl "externalId"
        internalCategory := rgetS tpl "internalCategory"
        internalType := rgetS tpl "internalType"
        languagePolicy := rgetS tpl "languagePolicy"
        meta := rgetS tpl "meta"
        namespace_ := rgetS tpl "namespace"
        modifiedOn := rgetI tpl "modifiedOn"
        priority := (rgetI tpl "priority").getD 0
        quality := rgetS tpl "quality"
        retry := (rgetI tpl "retry").getD 0
        stage := rgetS tpl "stage"
        wabaId := rgetS tpl "wabaId"
        errorMessageMeta := []
        isDeleted := "none"
        hash := some tpl_hash
        webhookMeta := []
        pk := none }
    if jTruthy (rgetJ tpl "containerMeta") then
      parse_container_meta (rgetJ tpl "containerMeta") fresh
    else fresh

/-- `WhatsAppTemplate.objects.filter(elementName=element_name).first()`
(gupshup.py 445): the first record, in query order, whose `elementName`
matches — with **no** filter on organisation, provider app instance or
language.  The db list is kept in the model's default query order
(`-created_at`, newest first). -/
def lookup_by_element_name (db : List Template) (name : String) : Option Template :=
  (db.filter (fun t => t.elementName = some name)).head?

/-- The md5 of the raw remote record, `gupshup.py` 443:
`hashlib.md5(json.dumps(tpl, sort_keys=True).encode('utf-8')).hexdigest()`. -/
def remote_tpl_hash (tpl : RemoteTpl) : String := md5HexUtf8 (dumps (.jobj tpl))

/-- The per-record loop of `GupshupProvider.get_templates` (gupshup.py
437-449): skip records without an `elementName`, hash the raw record,
look the local record up by element name alone, and stage the result of
`sync_templates`. -/
def get_templates_process (org_id : String) (db : List Template)
    (remote : List RemoteTpl) (ts : String) : List Template :=
  match remote with
  | [] => []
  | tpl :: rest =>
    match rgetS tpl "elementName" with
    | none => get_templates_process org_id db rest ts
    | some name =>
      if name = "" then get_templates_process org_id db rest ts
      else
        sync_templates org_id tpl (remote_tpl_hash tpl) (lookup_by_element_name db name) ts ::
          get_templates_process org_id db rest ts

/-- `bulk_update(..., fields=['category', 'templateType', 'status',
'modifiedOn', 'meta', 'containerMeta', 'hash'])` (tasks.py 94-97) persists
only those seven columns of a staged record. -/
def applyBulkUpdateFields (stored staged : Template) : Template :=
  { stored with
    category := staged.category
    templateType := staged.templateType
    status := staged.status
    modifiedOn := staged.modifiedOn
    meta := staged.meta
    containerMeta := staged.containerMeta
    hash := staged.hash }

/-- Result of one run of the sync task's write phase (tasks.py 92-98):
the records staged into `bulk_update` (those with a primary key), the ones
staged into `bulk_create` (those without), and the resulting table. -/
structure SyncOutcome where
  staged : List Template
  bulkUpdateList : List Template
  bulkCreateList : List Template
  newDb : List Template

/-- One full sync pass: process the remote list against `db`, then commit
the batch; created rows receive fresh primary keys and appear first in
query order (newest `created_at`). -/
def syncRun (org_id : String) (db : List Template) (remote : List RemoteTpl)
    (ts : String) (freshPk : Nat) : SyncOutcome :=
  let staged := get_templates_process org_id db remote ts
  let ups := staged.filter (fun t => t.pk.isSome)
  let crs := staged.filter (fun t => t.pk = none)
  let updatedDb := db.map (fun stored =>
    match ups.find? (fun u => u.pk = stored.pk) with
    | some u => applyBulkUpdateFields stored u
    | none => stored)
  let created := (List.range crs.length).zip crs |>.map
    (fun p => { p.2 with pk := some (freshPk + p.1) })
  { staged := staged
    bulkUpdateList := ups
    bulkCreateList := crs
    newDb := created.reverse ++ updatedDb }

theorem pcmData_pres (cj : JVal) (t : Template) :
    (pcmData cj t).hash = t.hash ∧ (pcmData cj t).elementName = t.elementName ∧
      (pcmData cj t).pk = t.pk ∧ (pcmData cj t).org_id = t.org_id := by
  unfold pcmData
  split <;> first | exact ⟨rfl, rfl, rfl, rfl⟩ | (split <;> exact ⟨rfl, rfl, rfl, rfl⟩)

theorem pcmButtons_pres (cj : JVal) (t : Template) :
    (pcmButtons cj t).hash = t.hash ∧ (pcmButtons cj t).elementName = t.elementName ∧
      (pcmButtons cj t).pk = t.pk ∧ (pcmButtons cj t).org_id = t.org_id := by
  unfold pcmButtons
  split <;> first | exact ⟨rfl, rfl, rfl, rfl⟩ | (split <;> exact ⟨rfl, rfl, rfl, rfl⟩)

theorem pcmHeader_pres (cj : JVal) (t : Template) :
    (pcmHeader cj t).hash = t.hash ∧ (pcmHeader cj t).elementName = t.elementName ∧
      (pcmHeader cj t).pk = t.pk ∧ (pcmHeader cj t).org_id = t.org_id := by
  unfold pcmHeader
  split <;> first | exact ⟨rfl, rfl, rfl, rfl⟩ | (split <;> exact ⟨rfl, rfl, rfl, rfl⟩)

theorem pcmFooter_pres (cj : JVal) (t : Template) :
    (pcmFooter cj t).hash = t.hash ∧ (pcmFooter cj t).elementName = t.elementName ∧
      (pcmFooter cj t).pk = t.pk ∧ (pcmFooter cj t).org_id = t.org_id := by
  unfold pcmFooter
  split <;> first | exact ⟨rfl, rfl, rfl, rfl⟩ | (split <;> exact ⟨rfl, rfl, rfl, rfl⟩)

theorem pcmSampleText_pres (cj : JVal) (t : Template) :
    (pcmSampleText cj t).hash = t.hash ∧ (pcmSampleText cj t).elementName = t.elementName ∧
      (pcmSampleText cj t).pk = t.pk ∧ (pcmSampleText cj t).org_id = t.org_id := by
  unfold pcmSampleText
  split <;> first | exact ⟨rfl, rfl, rfl, rfl⟩ | (split <;> exact ⟨rfl, rfl, rfl, rfl⟩)

theorem pcmSampleHeader_pres (cj : JVal) (t : Template) :
    (pcmSampleHeader cj t).hash = t.hash ∧ (pcmSampleHeader cj t).elementName = t.elementName ∧
      (pcmSampleHeader cj t).pk = t.pk ∧ (pcmSampleHeader cj t).org_id = t.org_id := by
  unfold pcmSampleHeader
  split <;> first | exact ⟨rfl, rfl, rfl, rfl⟩ | (split <;> exact ⟨rfl, rfl, rfl, rfl⟩)

theorem pcmEnableSample_pres (cj : JVal) (t : Template) :
    (pcmEnableSample cj t).hash = t.hash ∧ (pcmEnableSample cj t).elementName = t.elementName ∧
      (pcmEnableSample cj t).pk = t.pk ∧ (pcmEnableSample cj t).org_id = t.org_id := by
  unfold pcmEnableSample
  split <;> first | exact ⟨rfl, rfl, rfl, rfl⟩ | (split <;> exact ⟨rfl, rfl, rfl, rfl⟩)

theorem pcmAllowChange_pres (cj : JVal) (t : Template) :
    (pcmAllowChange cj t).hash = t.hash ∧ (pcmAllowChange cj t).elementName = t.elementName ∧
      (pcmAllowChange cj t).pk = t.pk ∧ (pcmAllowChange cj t).org_id = t.org_id := by
  unfold pcmAllowChange
  split <;> first | exact ⟨rfl, rfl, rfl, rfl⟩ | (split <;> exact ⟨rfl, rfl, rfl, rfl⟩)

theorem pcmCorrectCategory_pres (cj : JVal) (t : Template) :
    (pcmCorrectCategory cj t).hash = t.hash ∧
      (pcmCorrectCategory cj t).elementName = t.elementName ∧
      (pcmCorrectCategory cj t).pk = t.pk ∧ (pcmCorrectCategory cj t).org_id = t.org_id := by
  unfold pcmCorrectCategory
  split <;> first | exact ⟨rfl, rfl, rfl, rfl⟩ | (split <;> exact ⟨rfl, rfl, rfl, rfl⟩)

/-- `parse_container_meta` never touches `hash`, `elementName` or `pk`. -/
theorem parse_container_meta_pres (cm : JVal) (t : Template) :
    (parse_container_meta cm t).hash = t.hash ∧
      (parse_container_meta cm t).elementName = t.elementName ∧
      (parse_container_meta cm t).pk = t.pk ∧
      (parse_container_meta cm t).org_id = t.org_id := by
  have step : ∀ cj : JVal,
      (pcmCorrectCategory cj (pcmAllowChange cj (pcmEnableSample cj (pcmSampleHeader cj
        (pcmSampleText cj (pcmFooter cj (pcmHeader cj (pcmButtons cj
          (pcmData cj t))))))))).hash = t.hash ∧
      (pcmCorrectCategory cj (pcmAllowChange cj (pcmEnableSample cj (pcmSampleHeader cj
        (pcmSampleText cj (pcmFooter cj (pcmHeader cj (pcmButtons cj
          (pcmData cj t))))))))).elementName = t.elementName ∧
      (pcmCorrectCategory cj (pcmAllowChange cj (pcmEnableSample cj (pcmSampleHeader cj
        (pcmSampleText cj (pcmFooter cj (pcmHeader cj (pcmButtons cj
          (pcmData cj t))))))))).pk = t.pk ∧
      (pcmCorrectCategory cj (pcmAllowChange cj (pcmEnableSample cj (pcmSampleHeader cj
        (pcmSampleText cj (pcmFooter cj (pcmHeader cj (pcmButtons cj
          (pcmData cj t))))))))).org_id = t.org_id := by
    intro cj
    refine ⟨?_, ?_, ?_, ?_⟩
    · rw [(pcmCorrectCategory_pres _ _).1, (pcmAllowChange_pres _ _).1,
        (pcmEnableSample_pres _ _).1, (pcmSampleHeader_pres _ _).1, (pcmSampleText_pres _ _).1,
        (pcmFooter_pres _ _).1, (pcmHeader_pres _ _).1, (pcmButtons_pres _ _).1,
        (pcmData_pres _ _).1]
    · rw [(pcmCorrectCategory_pres _ _).2.1, (pcmAllowChange_pres _ _).2.1,
        (pcmEnableSample_pres _ _).2.1, (pcmSampleHeader_pres _ _).2.1,
        (pcmSampleText_pres _ _).2.1, (pcmFooter_pres _ _).2.1, (pcmHeader_pres _ _).2.1,
        (pcmButtons_pres _ _).2.1, (pcmData_pres _ _).2.1]
    · rw [(pcmCorrectCategory_pres _ _).2.2.1, (pcmAllowChange_pres _ _).2.2.1,
        (pcmEnableSample_pres _ _).2.2.1, (pcmSampleHeader_pres _ _).2.2.1,
        (pcmSampleText_pres _ _).2.2.1, (pcmFooter_pres _ _).2.2.1, (pcmHeader_pres _ _).2.2.1,
        (pcmButtons_pres _ _).2.2.1, (pcmData_pres _ _).2.2.1]
    · rw [(pcmCorrectCategory_pres _ _).2.2.2, (pcmAllowChange_pres _ _).2.2.2,
        (pcmEnableSample_pres _ _).2.2.2, (pcmSampleHeader_pres _ _).2.2.2,
        (pcmSampleText_pres _ _).2.2.2, (pcmFooter_pres _ _).2.2.2, (pcmHeader_pres _ _).2.2.2,
        (pcmButtons_pres _ _).2.2.2, (pcmData_pres _ _).2.2.2]
  unfold parse_container_meta
  repeat' split
  all_goals first | exact ⟨rfl, rfl, rfl, rfl⟩ | exact step _

/-- A remote record that `get_templates` will process: it carries a
non-empty `elementName` (gupshup.py 439-441). -/
def isNamed (tpl : RemoteTpl) : Bool :=
  !(((rgetS tpl "elementName").getD "") = "")

theorem isNamed_iff (tpl : RemoteTpl) :
    isNamed tpl = true ↔ ∃ name, rgetS tpl "elementName" = some name ∧ ¬name = "" := by
  unfold isNamed
  cases h : rgetS tpl "elementName" with
  | none => simp [h]
  | some n => simp [h]

/-- The skip branch: a stored hash equal to the remote hash returns the
record untouched (gupshup.py 552-553 falls through to `return template_obj`). -/
theorem sync_templates_skip (org : String) (tpl : RemoteTpl) (tpl_hash : String)
    (tobj : Template) (ts : String) (hh : tobj.hash = some tpl_hash) :
    sync_templates org tpl tpl_hash (some tobj) ts = tobj := by
  unfold sync_templates
  simp [hh]

/-- Every branch of `sync_templates` leaves the remote hash in `hash`:
the update and create branches assign it, and the skip branch fires only
when it is already stored. -/
theorem sync_templates_hash (org : String) (tpl : RemoteTpl) (tpl_hash : String)
    (topt : Option Template) (ts : String) :
    (sync_templates org tpl tpl_hash topt ts).hash = some tpl_hash := by
  unfold sync_templates
  cases topt with
  | some tobj =>
    try dsimp only
    split
    · try dsimp only
      split
      · rw [(parse_container_meta_pres _ _).1]
      · rfl
    · rename_i hcond
      simpa using hcond
  | none =>
    try dsimp only
    split
    · rw [(parse_container_meta_pres _ _).1]
    · rfl

/-- `sync_templates` keeps the primary key of the matched record. -/
theorem sync_templates_pk_some (org : String) (tpl : RemoteTpl) (tpl_hash : String)
    (tobj : Template) (ts : String) :
    (sync_templates org tpl tpl_hash (some tobj) ts).pk = tobj.pk := by
  unfold sync_templates
  try dsimp only
  split
  · try dsimp only
    split
    · rw [(parse_container_meta_pres _ _).2.2.1]
    · rfl
  · rfl

/-- An unmatched remote record is staged with no primary key. -/
theorem sync_templates_pk_none (org : String) (tpl : RemoteTpl) (tpl_hash : String)
    (ts : String) :
    (sync_templates org tpl tpl_hash none ts).pk = none := by
  unfold sync_templates
  try dsimp only
  split
  · rw [(parse_container_meta_pres _ _).2.2.1]
  · rfl

/-- `sync_templates` returns a record named after the remote record, as long
as a matched local record (if any) was itself so named. -/
theorem sync_templates_elementName (org : String) (tpl : RemoteTpl) (tpl_hash : String)
    (topt : Option Template) (ts : String)
    (hn : ∀ tobj, topt = some tobj → tobj.elementName = rgetS tpl "elementName") :
    (sync_templates org tpl tpl_hash topt ts).elementName = rgetS tpl "elementName" := by
  unfold sync_templates
  cases topt with
  | some tobj =>
    try dsimp only
    split
    · try dsimp only
      split
      · rw [(parse_container_meta_pres _ _).2.1]
      · rfl
    · exact hn tobj rfl
  | none =>
    try dsimp only
    split
    · rw [(parse_container_meta_pres _ _).2.1]
    · rfl

/-- In the update branch (stored hash differs), the staged record carries the
syncing caller's organisation, whatever organisation owned the matched row. -/
theorem sync_templates_org (org : String) (tpl : RemoteTpl) (tpl_hash : String)
    (tobj : Template) (ts : String) (hh : ¬tobj.hash = some tpl_hash) :
    (sync_templates org tpl tpl_hash (some tobj) ts).org_id = org := by
  unfold sync_templates
  try dsimp only
  rw [if_pos (by simpa using hh)]
  try dsimp only
  split
  · rw [(parse_container_meta_pres _ _).2.2.2]
  · rfl

theorem lookup_eq_some (db : List Template) (name : String) (r : Template)
    (h : lookup_by_element_name db name = some r) :
    r ∈ db ∧ r.elementName = some name := by
  unfold lookup_by_element_name at h
  cases hf : db.filter (fun t => t.elementName = some name) with
  | nil => rw [hf] at h; exact absurd h (by simp)
  | cons a l =>
    rw [hf] at h
    have ha : a ∈ db.filter (fun t => t.elementName = some name) := by rw [hf]; exact .head _
    have := List.mem_filter.mp ha
    cases h
    exact ⟨this.1, by simpa using this.2⟩

theorem lookup_append (l1 l2 : List Template) (name : String) :
    lookup_by_element_name (l1 ++ l2) name =
      (lookup_by_element_name l1 name).or (lookup_by_element_name l2 name) := by
  unfold lookup_by_element_name
  rw [List.filter_append, List.head?_append]

theorem lookup_none (db : List Template) (name : String)
    (h : ∀ r ∈ db, ¬r.elementName = some name) :
    lookup_by_element_name db name = none := by
  unfold lookup_by_element_name
  rw [List.filter_eq_nil_iff.mpr (by intro a ha; simpa using h a ha)]
  rfl

/-- The resolver commutes with any per-record rewrite that keeps
`elementName` — it cannot distinguish records by any other column. -/
theorem lookup_map_pres (f : Template → Template)
    (hf : ∀ t, (f t).elementName = t.elementName) (db : List Template) (name : String) :
    lookup_by_element_name (db.map f) name = (lookup_by_element_name db name).map f := by
  unfold lookup_by_element_name
  rw [List.filter_map]
  have : (fun t => decide (t.elementName = some name)) ∘ f =
      fun t => decide (t.elementName = some name) := by
    funext t; simp [Function.comp, hf t]
  rw [this, List.head?_map]

theorem gtp_nil (org : String) (db : List Template) (ts : String) :
    get_templates_process org db [] ts = [] := rfl

theorem gtp_cons_unnamed (org : String) (db : List Template) (tpl : RemoteTpl)
    (rest : List RemoteTpl) (ts : String) (h : isNamed tpl = false) :
    get_templates_process org db (tpl :: rest) ts = get_templates_process org db rest ts := by
  unfold isNamed at h
  rw [get_templates_process]
  cases hn : rgetS tpl "elementName" with
  | none => rfl
  | some name =>
    rw [hn] at h
    simp only [Option.getD_some, Bool.not_eq_false'] at h
    simp [of_decide_eq_true h]

theorem gtp_cons_named (org : String) (db : List Template) (tpl : RemoteTpl)
    (rest : List RemoteTpl) (ts : String) (name : String)
    (hn : rgetS tpl "elementName" = some name) (hne : ¬name = "") :
    get_templates_process org db (tpl :: rest) ts =
      sync_templates org tpl (remote_tpl_hash tpl) (lookup_by_element_name db name) ts ::
        get_templates_process org db rest ts := by
  rw [get_templates_process, hn]
  simp [hne]

/-- One record is staged per remote record carrying a non-empty name. -/
theorem gtp_length (org : String) (db : List Template) (remote : List RemoteTpl)
    (ts : String) :
    (get_templates_process org db remote ts).length = (remote.filter isNamed).length := by
  induction remote with
  | nil => rfl
  | cons tpl rest ih =>
    by_cases h : isNamed tpl = true
    · obtain ⟨name, hn, hne⟩ := (isNamed_iff tpl).mp h
      rw [gtp_cons_named org db tpl rest ts name hn hne, List.filter_cons_of_pos h]
      simp [ih]
    · rw [gtp_cons_unnamed org db tpl rest ts (by simpa using h), List.filter_cons_of_neg (by simpa using h)]
      exact ih

/-- The staged records carry exactly the names of the named remote records,
in order. -/
theorem gtp_names (org : String) (db : List Template) (remote : List RemoteTpl)
    (ts : String) :
    (get_templates_process org db remote ts).map Template.elementName =
      (remote.filter isNamed).map (fun tpl => rgetS tpl "elementName") := by
  induction remote with
  | nil => rfl
  | cons tpl rest ih =>
    by_cases h : isNamed tpl = true
    · obtain ⟨name, hn, hne⟩ := (isNamed_iff tpl).mp h
      rw [gtp_cons_named org db tpl rest ts name hn hne, List.filter_cons_of_pos h]
      simp only [List.map_cons, ih, List.cons.injEq, and_true]
      refine sync_templates_elementName org tpl _ _ ts ?_
      intro tobj ht
      rw [(lookup_eq_some db name tobj ht).2, hn]
    · rw [gtp_cons_unnamed org db tpl rest ts (by simpa using h), List.filter_cons_of_neg (by simpa using h)]
      exact ih

/-- Provenance: every staged record is the `sync_templates` image of a named
remote record, resolved against the db by element name alone. -/
theorem gtp_mem (org : String) (db : List Template) (remote : List RemoteTpl)
    (ts : String) (u : Template) (hu : u ∈ get_templates_process org db remote ts) :
    ∃ tpl, tpl ∈ remote ∧ ∃ name, rgetS tpl "elementName" = some name ∧ ¬name = "" ∧
      u = sync_templates org tpl (remote_tpl_hash tpl) (lookup_by_element_name db name) ts := by
  induction remote with
  | nil => exact absurd hu (by simp [gtp_nil])
  | cons tpl rest ih =>
    by_cases h : isNamed tpl = true
    · obtain ⟨name, hn, hne⟩ := (isNamed_iff tpl).mp h
      rw [gtp_cons_named org db tpl rest ts name hn hne] at hu
      rcases List.mem_cons.mp hu with rfl | hu
      · exact ⟨tpl, .head _, name, hn, hne, rfl⟩
      · obtain ⟨t, ht, w⟩ := ih hu
        exact ⟨t, .tail _ ht, w⟩
    · rw [gtp_cons_unnamed org db tpl rest ts (by simpa using h)] at hu
      obtain ⟨t, ht, w⟩ := ih hu
      exact ⟨t, .tail _ ht, w⟩

/-- Completeness: each named remote record's `sync_templates` result is staged. -/
theorem gtp_complete (org : String) (db : List Template) (remote : List RemoteTpl)
    (ts : String) (tpl : RemoteTpl) (name : String) (htpl : tpl ∈ remote)
    (hn : rgetS tpl "elementName" = some name) (hne : ¬name = "") :
    sync_templates org tpl (remote_tpl_hash tpl) (lookup_by_element_name db name) ts ∈
      get_templates_process org db remote ts := by
  induction remote with
  | nil => cases htpl
  | cons t0 rest ih =>
    rcases List.mem_cons.mp htpl with rfl | htpl
    · rw [gtp_cons_named org db tpl rest ts name hn hne]
      exact .head _
    · by_cases h : isNamed t0 = true
      · obtain ⟨name0, hn0, hne0⟩ := (isNamed_iff t0).mp h
        rw [gtp_cons_named org db t0 rest ts name0 hn0 hne0]
        exact .tail _ (ih htpl)
      · rw [gtp_cons_unnamed org db t0 rest ts (by simpa using h)]
        exact ih htpl

theorem applyBulk_elementName (stored staged : Template) :
    (applyBulkUpdateFields stored staged).elementName = stored.elementName := rfl

theorem applyBulk_pk (stored staged : Template) :
    (applyBulkUpdateFields stored staged).pk = stored.pk := rfl

theorem applyBulk_hash (stored staged : Template) :
    (applyBulkUpdateFields stored staged).hash = staged.hash := rfl

/-- In a table whose names are distinct, the resolver's filter returns the
one record carrying the requested name. -/
theorem filter_name_eq_of_nodup (name : String) (l : List Template)
    (hnd : (l.map Template.elementName).Nodup) (c : Template)
    (hc : c ∈ l) (hcn : c.elementName = some name) :
    l.filter (fun t => t.elementName = some name) = [c] := by
  induction l with
  | nil => cases hc
  | cons a l ih =>
    simp only [List.map_cons, List.nodup_cons] at hnd
    rcases List.mem_cons.mp hc with rfl | hc
    · rw [List.filter_cons_of_pos (by simpa using hcn)]
      have hnil : l.filter (fun t => t.elementName = some name) = [] := by
        refine List.filter_eq_nil_iff.mpr ?_
        intro b hb
        simp only [decide_eq_true_eq]
        intro hbn
        exact hnd.1 (by rw [hcn, ← hbn]; exact List.mem_map_of_mem Template.elementName hb)
      rw [hnil]
    · have hane : ¬(a.elementName = some name) := by
        intro ha
        exact hnd.1 (by rw [ha, ← hcn]; exact List.mem_map_of_mem Template.elementName hc)
      rw [List.filter_cons_of_neg (by simpa using hane)]
      exact ih hnd.2 hc

theorem created_mem (crs : List Template) (freshPk : Nat) (c : Template)
    (hc : c ∈ ((List.range crs.length).zip crs).map
      (fun p => { p.2 with pk := some (freshPk + p.1) })) :
    ∃ c0 ∈ crs, c.elementName = c0.elementName ∧ c.hash = c0.hash ∧ c.pk.isSome = true := by
  obtain ⟨p, hp, rfl⟩ := List.mem_map.mp hc
  exact ⟨p.2, (List.mem_zip hp).2, rfl, rfl, rfl⟩

theorem created_cover (crs : List Template) (freshPk : Nat) (s : Template) (hs : s ∈ crs) :
    ∃ c ∈ ((List.range crs.length).zip crs).map
      (fun p => { p.2 with pk := some (freshPk + p.1) }),
      c.elementName = s.elementName ∧ c.hash = s.hash := by
  obtain ⟨i, hi, rfl⟩ := List.mem_iff_getElem.mp hs
  have hiz : i < ((List.range crs.length).zip crs).length := by
    simpa using hi
  have hget : ((List.range crs.length).zip crs)[i] = (i, crs[i]) := by
    simp [List.getElem_zip]
  refine ⟨{ crs[i] with pk := some (freshPk + i) },
    List.mem_map.mpr ⟨(i, crs[i]), ?_, rfl⟩, rfl, rfl⟩
  rw [← hget]
  exact List.getElem_mem hiz

theorem created_names (crs : List Template) (freshPk : Nat) :
    (((List.range crs.length).zip crs).map
      (fun p => { p.2 with pk := some (freshPk + p.1) })).map Template.elementName =
      crs.map Template.elementName := by
  rw [List.map_map]
  have h1 : (Template.elementName ∘ fun p : Nat × Template =>
      { p.2 with pk := some (freshPk + p.1) }) =
      (Template.elementName ∘ Prod.snd) := rfl
  rw [h1, ← List.map_map, List.map_snd_zip _ _ (by simp)]

/-- The sync invariant established by a completed pass: every named remote
record resolves to a stored record already carrying the remote hash. -/
def GoodDb (db : List Template) (remote : List RemoteTpl) : Prop :=
  ∀ tpl ∈ remote, ∀ name, rgetS tpl "elementName" = some name → ¬name = "" →
    ∃ r, lookup_by_element_name db name = some r ∧ r.hash = some (remote_tpl_hash tpl)

/-- Second pass over an in-sync table: every record is skipped — returned
untouched from the table — and no create is staged.  Yet the whole staged
list flows into `bulk_update`, so the pass is not write-free. -/
theorem syncRun_second (org : String) (db : List Template) (remote : List RemoteTpl)
    (ts : String) (freshPk : Nat)
    (hgood : GoodDb db remote) (hdbpk : ∀ t ∈ db, t.pk.isSome = true) :
    (syncRun org db remote ts freshPk).bulkCreateList = [] ∧
    (syncRun org db remote ts freshPk).bulkUpdateList = (syncRun org db remote ts freshPk).staged ∧
    (∀ u ∈ (syncRun org db remote ts freshPk).staged, u ∈ db) ∧
    (syncRun org db remote ts freshPk).newDb.length = db.length := by
  have hstaged : ∀ u ∈ get_templates_process org db remote ts, u ∈ db := by
    intro u hu
    obtain ⟨tpl, htpl, name, hn, hne, rfl⟩ := gtp_mem org db remote ts u hu
    obtain ⟨r, hr, hrh⟩ := hgood tpl htpl name hn hne
    rw [hr, sync_templates_skip org tpl _ r ts hrh]
    exact (lookup_eq_some db name r hr).1
  have hpks : ∀ u ∈ get_templates_process org db remote ts, u.pk.isSome = true :=
    fun u hu => hdbpk u (hstaged u hu)
  have hcrs : (get_templates_process org db remote ts).filter (fun t => t.pk = none) = [] := by
    refine List.filter_eq_nil_iff.mpr ?_
    intro u hu
    have := hpks u hu
    simp only [decide_eq_true_eq]
    intro hnone
    rw [hnone] at this
    cases this
  have hups : (get_templates_process org db remote ts).filter (fun t => t.pk.isSome) =
      get_templates_process org db remote ts :=
    List.filter_eq_self.mpr (fun u hu => by simpa using hpks u hu)
  refine ⟨?_, ?_, hstaged, ?_⟩
  · show (get_templates_process org db remote ts).filter (fun t => t.pk = none) = []
    exact hcrs
  · show (get_templates_process org db remote ts).filter (fun t => t.pk.isSome) =
      get_templates_process org db remote ts
    exact hups
  · show ((((List.range ((get_templates_process org db remote ts).filter
        (fun t => t.pk = none)).length).zip ((get_templates_process org db remote ts).filter
        (fun t => t.pk = none))).map _).reverse ++ _).length = db.length
    rw [hcrs]
    simp

/-- A completed sync pass leaves the table in-sync: every named remote record
now resolves to a stored row holding the remote hash, and every row has a
primary key. -/
theorem syncRun_preserves (org : String) (db : List Template) (remote : List RemoteTpl)
    (ts : String) (freshPk : Nat)
    (hdbpk : ∀ t ∈ db, t.pk.isSome = true)
    (hdbnodup : (db.map Template.pk).Nodup)
    (hnames : ((remote.filter isNamed).map (fun tpl => rgetS tpl "elementName")).Nodup) :
    GoodDb (syncRun org db remote ts freshPk).newDb remote ∧
      (∀ t ∈ (syncRun org db remote ts freshPk).newDb, t.pk.isSome = true) := by
  set staged := get_templates_process org db remote ts with hstagedDef
  set ups := staged.filter (fun t => t.pk.isSome) with hupsDef
  set crs := staged.filter (fun t => t.pk = none) with hcrsDef
  set created := ((List.range crs.length).zip crs).map
    (fun p => { p.2 with pk := some (freshPk + p.1) }) with hcreatedDef
  set patch := (fun stored => match ups.find? (fun u => u.pk = stored.pk) with
    | some u => applyBulkUpdateFields stored u
    | none => stored) with hpatchDef
  have hnewDb : (syncRun org db remote ts freshPk).newDb = created.reverse ++ db.map patch := rfl
  have hsnd : (staged.map Template.elementName).Nodup := by
    rw [hstagedDef, gtp_names]
    exact hnames
  have hpatch_el : ∀ t, (patch t).elementName = t.elementName := by
    intro t
    rw [hpatchDef]
    dsimp only
    split <;> rfl
  have hpatch_pk : ∀ t, (patch t).pk = t.pk := by
    intro t
    rw [hpatchDef]
    dsimp only
    split <;> rfl
  constructor
  · intro tpl htpl name hn hne
    have hlkel : ∀ tobj, lookup_by_element_name db name = some tobj →
        tobj.elementName = rgetS tpl "elementName" := by
      intro tobj ht
      rw [(lookup_eq_some db name tobj ht).2, hn]
    set s := sync_templates org tpl (remote_tpl_hash tpl) (lookup_by_element_name db name) ts
      with hsDef
    have hsmem : s ∈ staged := by
      rw [hsDef, hstagedDef]
      exact gtp_complete org db remote ts tpl name htpl hn hne
    have hsname : s.elementName = some name := by
      rw [hsDef, sync_templates_elementName org tpl _ _ ts hlkel, hn]
    have hshash : s.hash = some (remote_tpl_hash tpl) := by
      rw [hsDef]
      exact sync_templates_hash org tpl _ _ ts
    have hremote_inj : ∀ tpl' ∈ remote, ∀ name', rgetS tpl' "elementName" = some name' →
        ¬name' = "" → name' = name → tpl' = tpl := by
      intro tpl' h1 name' h2 h3 h4
      have m1 : tpl' ∈ remote.filter isNamed :=
        List.mem_filter.mpr ⟨h1, (isNamed_iff tpl').mpr ⟨name', h2, h3⟩⟩
      have m2 : tpl ∈ remote.filter isNamed :=
        List.mem_filter.mpr ⟨htpl, (isNamed_iff tpl).mpr ⟨name, hn, hne⟩⟩
      exact List.inj_on_of_nodup_map hnames m1 m2 (by rw [h2, hn, h4])
    have hstaged_name : ∀ u ∈ staged, u.elementName = some name → u = s := by
      intro u hu hun
      rw [hstagedDef] at hu
      obtain ⟨tpl', htpl', name', hn', hne', rfl⟩ := gtp_mem org db remote ts u hu
      have hun' : (sync_templates org tpl' (remote_tpl_hash tpl')
          (lookup_by_element_name db name') ts).elementName = some name' := by
        rw [sync_templates_elementName org tpl' _ _ ts
          (fun tobj ht => by rw [(lookup_eq_some db name' tobj ht).2, hn']), hn']
      have hnm : name' = name := by
        rw [hun'] at hun
        exact Option.some.inj hun
      subst hnm
      have htt : tpl' = tpl := hremote_inj tpl' htpl' name' hn' hne' rfl
      subst htt
      exact hsDef.symm
    cases hlk : lookup_by_element_name db name with
    | none =>
      have hspk : s.pk = none := by
        rw [hsDef, hlk]
        exact sync_templates_pk_none org tpl _ ts
      have hscrs : s ∈ crs := by
        rw [hcrsDef]
        exact List.mem_filter.mpr ⟨hsmem, by simp [hspk]⟩
      obtain ⟨c, hcmem, hcel, hch⟩ := created_cover crs freshPk s hscrs
      rw [← hcreatedDef] at hcmem
      have hcrsnd : (crs.map Template.elementName).Nodup := by
        rw [hcrsDef]
        exact hsnd.sublist (List.Sublist.map Template.elementName (List.filter_sublist staged))
      have hcnnd : ((created.reverse).map Template.elementName).Nodup := by
        rw [List.map_reverse, List.nodup_reverse, hcreatedDef, created_names]
        exact hcrsnd
      have hfil : (created.reverse).filter (fun t => t.elementName = some name) = [c] :=
        filter_name_eq_of_nodup name created.reverse hcnnd c (List.mem_reverse.mpr hcmem)
          (by rw [hcel, hsname])
      refine ⟨c, ?_, by rw [hch, hshash]⟩
      rw [hnewDb, lookup_append]
      have h1 : lookup_by_element_name created.reverse name = some c := by
        unfold lookup_by_element_name
        rw [hfil]
        rfl
      rw [h1]
      rfl
    | some tobj =>
      have htobjmem := (lookup_eq_some db name tobj hlk).1
      have htobjel := (lookup_eq_some db name tobj hlk).2
      have hspk : s.pk = tobj.pk := by
        rw [hsDef, hlk]
        exact sync_templates_pk_some org tpl _ tobj ts
      have hsups : s ∈ ups := by
        rw [hupsDef]
        exact List.mem_filter.mpr ⟨hsmem, by rw [hspk]; exact hdbpk tobj htobjmem⟩
      have hkey : ∀ u ∈ ups, u.pk = tobj.pk → u.hash = some (remote_tpl_hash tpl) := by
        intro u hu hupk
        have hu2 : u ∈ staged := by
          rw [hupsDef] at hu
          exact (List.mem_filter.mp hu).1
        rw [hstagedDef] at hu2
        obtain ⟨tpl', htpl', name', hn', hne', rfl⟩ := gtp_mem org db remote ts u hu2
        cases hlk' : lookup_by_element_name db name' with
        | none =>
          have hpknone : (sync_templates org tpl' (remote_tpl_hash tpl')
              (lookup_by_element_name db name') ts).pk = none := by
            rw [hlk']
            exact sync_templates_pk_none org tpl' _ ts
          rw [hpknone] at hupk
          have hps := hdbpk tobj htobjmem
          rw [← hupk] at hps
          simp at hps
        | some tobj' =>
          have hpk' : (sync_templates org tpl' (remote_tpl_hash tpl')
              (lookup_by_element_name db name') ts).pk = tobj'.pk := by
            rw [hlk']
            exact sync_templates_pk_some org tpl' _ tobj' ts
          rw [hpk'] at hupk
          have htobj'mem := (lookup_eq_some db name' tobj' hlk').1
          have htobj'el := (lookup_eq_some db name' tobj' hlk').2
          have heq : tobj' = tobj := List.inj_on_of_nodup_map hdbnodup htobj'mem htobjmem hupk
          have hnm : name' = name := by
            rw [heq] at htobj'el
            rw [htobj'el] at htobjel
            exact Option.some.inj htobjel
          have htt : tpl' = tpl := hremote_inj tpl' htpl' name' hn' hne' hnm
          rw [htt]
          exact sync_templates_hash org tpl _ _ ts
      have hfind : (ups.find? (fun u => u.pk = tobj.pk)).isSome :=
        List.find?_isSome.mpr ⟨s, hsups, by simp [hspk]⟩
      obtain ⟨u', hu'⟩ := Option.isSome_iff_exists.mp hfind
      have hu'mem : u' ∈ ups := List.mem_of_find?_eq_some hu'
      have hu'pk : u'.pk = tobj.pk := by simpa using List.find?_some hu'
      have hu'hash := hkey u' hu'mem hu'pk
      have hpatchtobj : patch tobj = applyBulkUpdateFields tobj u' := by
        rw [hpatchDef]
        dsimp only
        rw [hu']
      have hnoc : ∀ c ∈ created.reverse, ¬c.elementName = some name := by
        intro c hc hcn
        rw [List.mem_reverse, hcreatedDef] at hc
        obtain ⟨c0, hc0, hcel, hchash0, hcpk0⟩ := created_mem crs freshPk c hc
        have hc0staged : c0 ∈ staged := by
          rw [hcrsDef] at hc0
          exact (List.mem_filter.mp hc0).1
        have hc0pk : c0.pk = none := by
          rw [hcrsDef] at hc0
          simpa using (List.mem_filter.mp hc0).2
        have hc0s : c0 = s := hstaged_name c0 hc0staged (by rw [← hcel, hcn])
        rw [hc0s, hspk] at hc0pk
        have hps := hdbpk tobj htobjmem
        rw [hc0pk] at hps
        simp at hps
      refine ⟨applyBulkUpdateFields tobj u', ?_, by rw [applyBulk_hash, hu'hash]⟩
      rw [hnewDb, lookup_append, lookup_none created.reverse name hnoc]
      have hmp : lookup_by_element_name (db.map patch) name = some (patch tobj) := by
        rw [lookup_map_pres patch hpatch_el db name, hlk]
        rfl
      rw [hmp, hpatchtobj]
      rfl
  · intro t ht
    rw [hnewDb] at ht
    rcases List.mem_append.mp ht with hc | hm
    · rw [List.mem_reverse, hcreatedDef] at hc
      obtain ⟨c0, hc0, hcel, hchash0, hcpk0⟩ := created_mem crs freshPk t hc
      exact hcpk0
    · obtain ⟨stored, hst, rfl⟩ := List.mem_map.mp hm
      rw [hpatch_pk]
      exact hdbpk stored hst

/-- A remote record used by the sync counterexamples and witnesses, with
its keys already in `json.dumps(sort_keys=True)` order. -/
def c2tpl : RemoteTpl :=
  [("appId", .jstr "app-1"), ("category", .jstr "MARKETING"),
   ("elementName", .jstr "welcome_msg"), ("languageCode", .jstr "en"),
   ("priority", .jint 1), ("retry", .jint 0), ("status", .jstr "APPROVED"),
   ("templateType", .jstr "TEXT")]

set_option maxRecDepth 100000 in
/-- C2, counterexample: sync the same one-record remote list twice from an
empty table.  The second run's lookup finds the created record, its stored
hash matches the remote hash, `sync_templates` skips it — yet the record is
still placed in the `bulk_update` batch (one write), because
`get_templates` appends every processed record to `templates` and the task
bulk-updates all of them that carry a primary key.  The second run is not
zero local writes. -/
theorem c2_counterexample_second_run_still_writes :
    (syncRun "org-1" (syncRun "org-1" [] [c2tpl] "1700000000.0" 1).newDb [c2tpl]
      "1700000100.0" 2).bulkUpdateList.length = 1 ∧
    (syncRun "org-1" (syncRun "org-1" [] [c2tpl] "1700000000.0" 1).newDb [c2tpl]
      "1700000100.0" 2).bulkCreateList.length = 0 := by
  decide

/-- C2 (amended): running the sync twice over the identical remote list is
idempotent in *values* but not in *writes*.  Provided the table rows are
keyed and key-distinct and the remote names are distinct, the second run
stages no create, and every record it stages is byte-identical to a row
already in the table (each hash-matched record is skipped by
`sync_templates`); but the whole staged list — one record per named remote
record — still flows into `bulk_update`, so the second run performs one
UPDATE write per named remote record rather than zero writes. -/
theorem c2_second_sync_run_skips_but_still_updates (org : String) (db : List Template)
    (remote : List RemoteTpl) (ts1 ts2 : String) (pk1 pk2 : Nat)
    (hdbpk : ∀ t ∈ db, t.pk.isSome = true)
    (hdbnodup : (db.map Template.pk).Nodup)
    (hnames : ((remote.filter isNamed).map (fun tpl => rgetS tpl "elementName")).Nodup) :
    (syncRun org (syncRun org db remote ts1 pk1).newDb remote ts2 pk2).bulkCreateList = [] ∧
    (∀ u ∈ (syncRun org (syncRun org db remote ts1 pk1).newDb remote ts2 pk2).staged,
      u ∈ (syncRun org db remote ts1 pk1).newDb) ∧
    (syncRun org (syncRun org db remote ts1 pk1).newDb remote ts2 pk2).bulkUpdateList =
      (syncRun org (syncRun org db remote ts1 pk1).newDb remote ts2 pk2).staged ∧
    (syncRun org (syncRun org db remote ts1 pk1).newDb remote ts2 pk2).bulkUpdateList.length =
      (remote.filter isNamed).length := by
  obtain ⟨hgood, hpk⟩ := syncRun_preserves org db remote ts1 pk1 hdbpk hdbnodup hnames
  obtain ⟨h1, h2, h3, _⟩ :=
    syncRun_second org (syncRun org db remote ts1 pk1).newDb remote ts2 pk2 hgood hpk
  refine ⟨h1, h3, h2, ?_⟩
  rw [h2]
  exact gtp_length org (syncRun org db remote ts1 pk1).newDb remote ts2

set_option maxRecDepth 100000 in
/-- Witness for the amended C2 theorem at a concrete instance. -/
theorem c2_second_sync_run_witness :
    ((∀ t ∈ ([] : List Template), t.pk.isSome = true) ∧
     (([] : List Template).map Template.pk).Nodup ∧
     ((([c2tpl].filter isNamed)).map (fun tpl => rgetS tpl "elementName")).Nodup) ∧
    ((syncRun "org-1" (syncRun "org-1" [] [c2tpl] "1.0" 1).newDb [c2tpl] "2.0" 2).bulkCreateList
        = [] ∧
     (∀ u ∈ (syncRun "org-1" (syncRun "org-1" [] [c2tpl] "1.0" 1).newDb [c2tpl] "2.0" 2).staged,
       u ∈ (syncRun "org-1" [] [c2tpl] "1.0" 1).newDb) ∧
     (syncRun "org-1" (syncRun "org-1" [] [c2tpl] "1.0" 1).newDb [c2tpl] "2.0" 2).bulkUpdateList =
       (syncRun "org-1" (syncRun "org-1" [] [c2tpl] "1.0" 1).newDb [c2tpl] "2.0" 2).staged ∧
     (syncRun "org-1" (syncRun "org-1" [] [c2tpl] "1.0" 1).newDb [c2tpl]
         "2.0" 2).bulkUpdateList.length = ([c2tpl].filter isNamed).length) :=
  ⟨⟨by simp, by simp, by decide⟩,
    c2_second_sync_run_skips_but_still_updates "org-1" [] [c2tpl] "1.0" "2.0" 1 2
      (by simp) (by simp) (by decide)⟩

/-- A remote record whose name collides with `sampleTemplate`'s. -/
def c10tpl : RemoteTpl :=
  [("elementName", .jstr "otp_1"), ("status", .jstr "APPROVED")]

/-- C10: during sync, the local record for a remote record is resolved by
filtering on `elementName` alone and taking the first match — no filter on
organisation, provider app instance or language code (gupshup.py 445).  So
whenever another organisation's template carries the same element name and
its stored hash drifts from the remote hash, a sync run of this
organisation stages an update that targets the other organisation's row by
primary key and rewrites its `org_id` to the syncing organisation. -/
theorem c10_sync_lookup_ignores_org (org ts : String) (db : List Template)
    (tpl : RemoteTpl) (victim : Template) (name : String)
    (hn : rgetS tpl "elementName" = some name) (hne : ¬name = "")
    (hv : lookup_by_element_name db name = some victim)
    (horg : ¬victim.org_id = org)
    (hdrift : ¬victim.hash = some (remote_tpl_hash tpl)) :
    victim ∈ db ∧
    ∃ u ∈ get_templates_process org db [tpl] ts,
      u.pk = victim.pk ∧ u.org_id = org ∧ ¬u.org_id = victim.org_id := by
  refine ⟨(lookup_eq_some db name victim hv).1,
    sync_templates org tpl (remote_tpl_hash tpl) (lookup_by_element_name db name) ts,
    gtp_complete org db [tpl] ts tpl name (.head _) hn hne, ?_, ?_, ?_⟩
  · rw [hv]
    exact sync_templates_pk_some org tpl _ victim ts
  · rw [hv]
    exact sync_templates_org org tpl _ victim ts hdrift
  · rw [hv, sync_templates_org org tpl _ victim ts hdrift]
    intro h
    exact horg h.symm

/-- Witness for the C10 theorem at a concrete instance: organisation
`org-2` syncs while the only stored `otp_1` row belongs to `org-1`. -/
theorem c10_sync_lookup_witness :
    (rgetS c10tpl "elementName" = some "otp_1" ∧ ¬("otp_1" : String) = "" ∧
     lookup_by_element_name [sampleTemplate] "otp_1" = some sampleTemplate ∧
     ¬sampleTemplate.org_id = "org-2" ∧
     ¬sampleTemplate.hash = some (remote_tpl_hash c10tpl)) ∧
    (sampleTemplate ∈ [sampleTemplate] ∧
     ∃ u ∈ get_templates_process "org-2" [sampleTemplate] [c10tpl] "9.0",
       u.pk = sampleTemplate.pk ∧ u.org_id = "org-2" ∧ ¬u.org_id = sampleTemplate.org_id) :=
  ⟨⟨rfl, by decide, rfl, by decide, by simp [sampleTemplate]⟩,
   c10_sync_lookup_ignores_org "org-2" "9.0" [sampleTemplate] c10tpl sampleTemplate "otp_1"
     rfl (by decide) rfl (by decide) (by simp [sampleTemplate])⟩

/-- A remote record used by the hash-invariant counterexample. -/
def c9tpl : RemoteTpl :=
  [("category", .jstr "UTILITY"), ("elementName", .jstr "order_update"),
   ("languageCode", .jstr "en_US"), ("status", .jstr "PENDING"),
   ("templateType", .jstr "TEXT")]

set_option maxRecDepth 100000 in
/-- C9, counterexample: sync one remote record into an empty table.  The
bulk-created row stores the md5 of the raw provider record
(`remote_tpl_hash`), and that digest differs from `generate_hash`
recomputed over the row's own field values — `bulk_create`/`bulk_update`
bypass `save()`, so the recompute-on-save invariant fails on the sync
path. -/
theorem c9_counterexample_bulk_path_breaks_invariant :
    ((syncRun "org-9" [] [c9tpl] "3.0" 7).newDb.map (fun t => t.hash))
        = [some (remote_tpl_hash c9tpl)] ∧
    ((syncRun "org-9" [] [c9tpl] "3.0" 7).newDb.map
        (fun t => decide (t.hash = some (generate_hash t)))) = [false] := by
  decide

/-- C9 (amended): the invariant `hash = recomputed digest of the current
provider-relevant fields` holds exactly on the `save()` path — `save`
recomputes it — while the sync bulk path instead stores the md5 of the raw
remote JSON record for every staged row, a value computed from the
provider's payload and not from the row's own fields. -/
theorem c9_hash_recomputed_only_on_save (t : Template) (org : String) (db : List Template)
    (remote : List RemoteTpl) (ts : String) :
    (modelSave t).hash = some (generate_hash (modelSave t)) ∧
    (get_templates_process org db remote ts).map (fun u => u.hash) =
      (remote.filter isNamed).map (fun tpl => some (remote_tpl_hash tpl)) := by
  refine ⟨rfl, ?_⟩
  induction remote with
  | nil => rfl
  | cons tpl rest ih =>
    by_cases h : isNamed tpl = true
    · obtain ⟨name, hn, hne⟩ := (isNamed_iff tpl).mp h
      rw [gtp_cons_named org db tpl rest ts name hn hne, List.filter_cons_of_pos h]
      simp only [List.map_cons, ih, List.cons.injEq, and_true]
      exact sync_templates_hash org tpl _ _ ts
    · rw [gtp_cons_unnamed org db tpl rest ts (by simpa using h),
        List.filter_cons_of_neg (by simpa using h)]
      exact ih

/-! ## The Celery tasks and their retry discipline (tasks.py)

Each task body's provider-call phase (`try: ... except Exception`) is one
*attempt*; Celery (`bind=True, max_retries=3`) re-executes the task when
`self.retry(countdown=2**self.request.retries)` is reached with fewer than
3 earlier retries, and raises `MaxRetriesExceededError` into the terminal
handler otherwise.  The provider is abstracted as a function from the
attempt number to its outcome: a success, a tagged failure dict
(`{'ok': False, 'response': msg}`), or a raised exception. -/

inductive ProvResult where
  | ok
  | err (msg : String)
  | exn (msg : String)
deriving DecidableEq

inductive PyExn where
  | valueError (msg : String)
  | nameError (var : String)
  | providerExn (msg : String)
deriving DecidableEq

def pyStr : PyExn → String
  | .valueError m => m
  | .nameError v => "name " ++ v ++ " is not defined"
  | .providerExn m => m

/-- `constants.GupshupAction` values (constants.py 15-17). -/
def APPLY_TEMPLATE : String := "apply_template"

def UPDATE_TEMPLATE : String := "update_template"

def DELETE_TEMPLATE : String := "delete_template"

/-- Observable effects of task execution: provider invocations,
`update_error_meta` writes (action key, message), `update_state(FAILURE)`
reports, and a hard `t.delete()`. -/
structure AttemptEffects where
  providerCalls : Nat
  audits : List (String × String)
  failureStates : List String
  rowDeleted : Bool

def AttemptEffects.app (a b : AttemptEffects) : AttemptEffects :=
  { providerCalls := a.providerCalls + b.providerCalls
    audits := a.audits ++ b.audits
    failureStates := a.failureStates ++ b.failureStates
    rowDeleted := a.rowDeleted || b.rowDeleted }

structure TaskRun where
  effects : AttemptEffects
  delays : List Nat
  result : Except PyExn Unit

/-- The Celery retry driver: run the attempt; on an uncaught exception in
the try-block, schedule a retry delayed `2^retries` seconds while retries
remain, else run the task's `MaxRetriesExceededError` handler.  The third
component of an attempt is the value of the local `error_message` variable
if the attempt assigned it (Python locals do not survive into the next
attempt, and reading an unassigned one raises `NameError`). -/
def celeryGo (attempt : Nat → AttemptEffects × Option PyExn × Option String)
    (terminal : PyExn → Option String → AttemptEffects × PyExn) :
    Nat → Nat → AttemptEffects → List Nat → TaskRun
  | fuel, k, acc, delays =>
    match attempt k with
    | (eff, none, _) => { effects := acc.app eff, delays := delays, result := .ok () }
    | (eff, some e, emsg) =>
      match fuel with
      | fuel' + 1 => celeryGo attempt terminal fuel' (k + 1) (acc.app eff) (delays ++ [2 ^ k])
      | 0 =>
        { effects := (acc.app eff).app (terminal e emsg).1
          delays := delays
          result := .error (terminal e emsg).2 }

def celeryRun (attempt : Nat → AttemptEffects × Option PyExn × Option String)
    (terminal : PyExn → Option String → AttemptEffects × PyExn) : TaskRun :=
  celeryGo attempt terminal 3 0 ⟨0, [], [], false⟩ []

/-- One attempt of `submit_template_for_approval`'s provider-call phase
(tasks.py 165-196): on `ok` an audit `Success` is written; on a tagged
failure the message is audited, FAILURE reported, and `ValueError` raised
*inside* the try — so it reaches the retry handler; a provider exception
reaches it directly. -/
def submit_attempt (provider : Nat → ProvResult) (k : Nat) :
    AttemptEffects × Option PyExn × Option String :=
  match provider k with
  | .ok => (⟨1, [(APPLY_TEMPLATE, "Success")], [], false⟩, none, none)
  | .err msg => (⟨1, [(APPLY_TEMPLATE, msg)], [msg], false⟩, some (.valueError msg), some msg)
  | .exn msg => (⟨1, [], [], false⟩, some (.providerExn msg), none)

/-- `submit_template_for_approval`'s `MaxRetriesExceededError` handler
(tasks.py 199-210): it audits `error_message` — the *tagged-failure*
message local — so when the last attempt failed with a plain exception the
audit argument is an unassigned local and the handler dies with
`NameError` before auditing or reporting FAILURE. -/
def submit_terminal (e : PyExn) (emsg : Option String) : AttemptEffects × PyExn :=
  match emsg with
  | some msg =>
    (⟨0, [(APPLY_TEMPLATE, msg)], ["Max retries exceeded. Final error: " ++ pyStr e], false⟩,
      .valueError msg)
  | none => (⟨0, [], [], false⟩, .nameError "error_message")

def submit_template_for_approval_run (provider : Nat → ProvResult) : TaskRun :=
  celeryRun (submit_attempt provider) submit_terminal

/-- One attempt of `update_template_with_provider` (tasks.py 258-287). -/
def update_attempt (provider : Nat → ProvResult) (k : Nat) :
    AttemptEffects × Option PyExn × Option String :=
  match provider k with
  | .ok => (⟨1, [(UPDATE_TEMPLATE, "Success")], [], false⟩, none, none)
  | .err msg => (⟨1, [(UPDATE_TEMPLATE, msg)], [msg], false⟩, some (.valueError msg), some msg)
  | .exn msg => (⟨1, [], [], false⟩, some (.providerExn msg), none)

/-- `update_template_with_provider`'s terminal handler (tasks.py 289-303):
audits under the APPLY_TEMPLATE key, and references the same possibly
unassigned `error_message` local. -/
def update_terminal (e : PyExn) (emsg : Option String) : AttemptEffects × PyExn :=
  match emsg with
  | some msg =>
    (⟨0, [(APPLY_TEMPLATE, msg)], ["Max retries exceeded. Final error: " ++ pyStr e], false⟩,
      .valueError msg)
  | none => (⟨0, [], [], false⟩, .nameError "error_message")

def update_template_with_provider_run (provider : Nat → ProvResult) : TaskRun :=
  celeryRun (update_attempt provider) update_terminal

/-- One attempt of `delete_template_with_provider` (tasks.py 344-366):
`t.delete()` runs only in the `ok` branch. -/
def delete_attempt (provider : Nat → ProvResult) (k : Nat) :
    AttemptEffects × Option PyExn × Option String :=
  match provider k with
  | .ok => (⟨1, [], [], true⟩, none, none)
  | .err msg => (⟨1, [(DELETE_TEMPLATE, msg)], [msg], false⟩, some (.valueError msg), some msg)
  | .exn msg => (⟨1, [], [], false⟩, some (.providerExn msg), none)

/-- `delete_template_with_provider`'s terminal handler (tasks.py 368-379). -/
def delete_terminal (e : PyExn) (emsg : Option String) : AttemptEffects × PyExn :=
  match emsg with
  | some msg =>
    (⟨0, [(DELETE_TEMPLATE, msg)], ["Max retries exceeded. Final error: " ++ pyStr e], false⟩,
      .valueError msg)
  | none => (⟨0, [], [], false⟩, .nameError "error_message")

def delete_template_with_provider_run (provider : Nat → ProvResult) : TaskRun :=
  celeryRun (delete_attempt provider) delete_terminal

/-- One attempt of `sync_templates_for_app_id`'s fetch-and-commit phase
(tasks.py 75-101): there is no template record, hence no audit write in any
branch. -/
def sync_attempt (provider : Nat → ProvResult) (k : Nat) :
    AttemptEffects × Option PyExn × Option String :=
  match provider k with
  | .ok => (⟨1, [], [], false⟩, none, none)
  | .err msg => (⟨1, [], [msg], false⟩, some (.valueError msg), some msg)
  | .exn msg => (⟨1, [], [], false⟩, some (.providerExn msg), none)

/-- `sync_templates_for_app_id`'s terminal handler (tasks.py 105-114):
reports FAILURE and raises, but has no template whose error-audit it could
write. -/
def sync_terminal (e : PyExn) (emsg : Option String) : AttemptEffects × PyExn :=
  (⟨0, [], ["Max retries exceeded. Final error: " ++ pyStr e], false⟩,
    .valueError ("Max retries exceeded. Final error: " ++ pyStr e))

def sync_templates_for_app_id_run (provider : Nat → ProvResult) : TaskRun :=
  celeryRun (sync_attempt provider) sync_terminal

/-- `update_error_meta` (models.py 353-373): replace
`errorMessageMeta[key]` with `{'payload': value, 'ts': ...}` and save. -/
def update_error_meta (t : Template) (key value ts : String) : Template :=
  modelSave { t with errorMessageMeta :=
    (key, .jobj [("payload", .jstr value), ("ts", .jstr ts)]) ::
      t.errorMessageMeta.filter (fun e => ¬e.1 = key) }

def applyAudits (t : Template) (audits : List (String × String)) (ts : String) : Template :=
  audits.foldl (fun acc e => update_error_meta acc e.1 e.2 ts) t

/-- The deletion flow: `perform_destroy` (views.py 162-166) enqueues the
task and saves the row with `isDeleted='Processing'`; the worker then runs
`delete_template_with_provider`, whose audits land on the row, and which
hard-deletes the row only in its `ok` branch. -/
def delete_flow (t : Template) (provider : Nat → ProvResult) (ts : String) :
    Option Template × TaskRun :=
  let t1 := modelSave { t with isDeleted := "Processing" }
  let run := delete_template_with_provider_run provider
  (if run.effects.rowDeleted then none
   else some (applyAudits t1 run.effects.audits ts), run)

theorem celeryGo_rowDeleted_false
    (attempt : Nat → AttemptEffects × Option PyExn × Option String)
    (terminal : PyExn → Option String → AttemptEffects × PyExn)
    (ha : ∀ k, (attempt k).1.rowDeleted = false)
    (ht : ∀ e m, (terminal e m).1.rowDeleted = false) :
    ∀ fuel k acc delays, acc.rowDeleted = false →
      (celeryGo attempt terminal fuel k acc delays).effects.rowDeleted = false := by
  intro fuel
  induction fuel with
  | zero =>
    intro k acc delays hacc
    rw [celeryGo]
    rcases hak : attempt k with ⟨eff, exn?, emsg⟩
    have heff : eff.rowDeleted = false := by
      have h := ha k
      rw [hak] at h
      exact h
    simp only [hak]
    cases exn? with
    | none => simp [AttemptEffects.app, hacc, heff]
    | some e => simp [AttemptEffects.app, hacc, heff, ht e emsg]
  | succ fuel' ih =>
    intro k acc delays hacc
    rw [celeryGo]
    rcases hak : attempt k with ⟨eff, exn?, emsg⟩
    have heff : eff.rowDeleted = false := by
      have h := ha k
      rw [hak] at h
      exact h
    simp only [hak]
    cases exn? with
    | none => simp [AttemptEffects.app, hacc, heff]
    | some e =>
      exact ih (k + 1) (acc.app eff) (delays ++ [2 ^ k])
        (by simp [AttemptEffects.app, hacc, heff])

theorem update_error_meta_isDeleted (t : Template) (key value ts : String) :
    (update_error_meta t key value ts).isDeleted = t.isDeleted := rfl

theorem applyAudits_isDeleted (audits : List (String × String)) (t : Template) (ts : String) :
    (applyAudits t audits ts).isDeleted = t.isDeleted := by
  induction audits generalizing t with
  | nil => rfl
  | cons a rest ih =>
    show (applyAudits (update_error_meta t a.1 a.2 ts) rest ts).isDeleted = t.isDeleted
    rw [ih, update_error_meta_isDeleted]

/-- C3: a provider-call phase that raises a transient exception on every
attempt is indeed attempted 4 times (1 initial + 3 retries) with backoff
delays `[2^0, 2^1, 2^2] = [1, 2, 4]` seconds — but no task records the
terminal error in the template's error audit.  The submit/update/delete
terminal handlers audit the local `error_message`, which is only assigned
by the tagged-failure branch, so after a plain exception they crash with
`NameError` *before* the audit write and the FAILURE report; the sync task
reports FAILURE but has no template to audit. -/
theorem c3_transient_exhaustion_retries_but_audits_nothing (msg : String) :
    ((submit_template_for_approval_run (fun _ => .exn msg)).effects.providerCalls = 4 ∧
     (submit_template_for_approval_run (fun _ => .exn msg)).delays = [1, 2, 4] ∧
     (submit_template_for_approval_run (fun _ => .exn msg)).effects.audits = [] ∧
     (submit_template_for_approval_run (fun _ => .exn msg)).effects.failureStates = [] ∧
     (submit_template_for_approval_run (fun _ => .exn msg)).result =
       .error (.nameError "error_message")) ∧
    ((update_template_with_provider_run (fun _ => .exn msg)).effects.providerCalls = 4 ∧
     (update_template_with_provider_run (fun _ => .exn msg)).effects.audits = [] ∧
     (update_template_with_provider_run (fun _ => .exn msg)).result =
       .error (.nameError "error_message")) ∧
    ((delete_template_with_provider_run (fun _ => .exn msg)).effects.providerCalls = 4 ∧
     (delete_template_with_provider_run (fun _ => .exn msg)).effects.audits = [] ∧
     (delete_template_with_provider_run (fun _ => .exn msg)).result =
       .error (.nameError "error_message")) ∧
    ((sync_templates_for_app_id_run (fun _ => .exn msg)).effects.providerCalls = 4 ∧
     (sync_templates_for_app_id_run (fun _ => .exn msg)).delays = [1, 2, 4] ∧
     (sync_templates_for_app_id_run (fun _ => .exn msg)).effects.audits = [] ∧
     (sync_templates_for_app_id_run (fun _ => .exn msg)).result =
       .error (.valueError ("Max retries exceeded. Final error: " ++ msg))) :=
  ⟨⟨rfl, rfl, rfl, rfl, rfl⟩, ⟨rfl, rfl, rfl⟩, ⟨rfl, rfl, rfl⟩, ⟨rfl, rfl, rfl, rfl⟩⟩

/-- C4: a provider-returned tagged failure (`ok = False`) does *not* end the
submit task immediately: the rejection branch audits the message and
reports FAILURE but then raises `ValueError` inside the try-block, which
the generic exception handler turns into a retry.  The well-formed
rejection is retried 3 times — 4 provider calls, backoff `[1, 2, 4]` — and
the message is audited on every attempt plus once more by the terminal
handler. -/
theorem c4_provider_rejection_is_retried (msg : String) :
    (submit_template_for_approval_run (fun _ => .err msg)).effects.providerCalls = 4 ∧
    (submit_template_for_approval_run (fun _ => .err msg)).delays = [1, 2, 4] ∧
    (submit_template_for_approval_run (fun _ => .err msg)).effects.audits =
      [(APPLY_TEMPLATE, msg), (APPLY_TEMPLATE, msg), (APPLY_TEMPLATE, msg),
       (APPLY_TEMPLATE, msg), (APPLY_TEMPLATE, msg)] ∧
    (submit_template_for_approval_run (fun _ => .err msg)).result =
      .error (.valueError msg) :=
  ⟨rfl, rfl, rfl, rfl⟩

/-- C5: deletion is two-phase.  The view saves the row with
`isDeleted='Processing'` before the worker can call the provider; the task
hard-deletes the row only in the provider's `ok` branch; and when the
provider keeps failing, the row survives every retry with
`isDeleted='Processing'` — never `'Deleted'`, which only the webhook's
`mark_as_deleted` writes. -/
theorem c5_delete_is_two_phase (t : Template) (provider : Nat → ProvResult) (ts : String)
    (hfail : ∀ k, ¬provider k = ProvResult.ok) :
    (modelSave { t with isDeleted := "Processing" }).isDeleted = "Processing" ∧
    (delete_flow t (fun _ => ProvResult.ok) ts).1 = none ∧
    (∃ r, (delete_flow t provider ts).1 = some r ∧ r.isDeleted = "Processing" ∧
      ¬r.isDeleted = "Deleted") := by
  refine ⟨rfl, rfl, ?_⟩
  have hrd : (delete_template_with_provider_run provider).effects.rowDeleted = false := by
    apply celeryGo_rowDeleted_false
    · intro k
      unfold delete_attempt
      cases hk : provider k with
      | ok => exact absurd hk (hfail k)
      | err m => rfl
      | exn m => rfl
    · intro e m
      cases m <;> rfl
    · rfl
  have heq : (delete_flow t provider ts).1 =
      if (delete_template_with_provider_run provider).effects.rowDeleted then none
      else some (applyAudits (modelSave { t with isDeleted := "Processing" })
        (delete_template_with_provider_run provider).effects.audits ts) := rfl
  refine ⟨applyAudits (modelSave { t with isDeleted := "Processing" })
    (delete_template_with_provider_run provider).effects.audits ts, ?_, ?_, ?_⟩
  · rw [heq, hrd]
    rfl
  · rw [applyAudits_isDeleted]
    rfl
  · rw [applyAudits_isDeleted]
    show ¬("Processing" : String) = "Deleted"
    decide

/-- Witness for the C5 theorem: a provider that rejects every delete call. -/
theorem c5_delete_is_two_phase_witness :
    (∀ k : Nat, ¬(fun _ : Nat => ProvResult.err "boom") k = ProvResult.ok) ∧
    ((modelSave { sampleTemplate with isDeleted := "Processing" }).isDeleted = "Processing" ∧
     (delete_flow sampleTemplate (fun _ => ProvResult.ok) "5.0").1 = none ∧
     (∃ r, (delete_flow sampleTemplate (fun _ => ProvResult.err "boom") "5.0").1 = some r ∧
       r.isDeleted = "Processing" ∧ ¬r.isDeleted = "Deleted")) :=
  ⟨fun _ h => ProvResult.noConfusion h,
   c5_delete_is_two_phase sampleTemplate (fun _ => ProvResult.err "boom") "5.0"
     (fun _ h => ProvResult.noConfusion h)⟩

/-! ## The Gupshup template webhook (webhooks/gupshup_webhook.py) -/

/-- The stored values of `WhatsAppTemplate.STATUS_CHOICES` (models.py
91-102). -/
def STATUS_CHOICES : List String :=
  ["draft", "pending", "approved", "rejected", "failed", "paused", "deleted",
   "disabled", "in_appeal"]

/-- `WhatsAppTemplate.mark_as_deleted` (models.py 348-351). -/
def mark_as_deleted (t : Template) : Template :=
  modelSave { t with isDeleted := "Deleted" }

/-- `WhatsAppTemplate._update_and_log_webhook_event` (models.py 375-399):
write the main field for the event type — for `status-update` the
assignment `self.status = main_field_value` is unconditional — then replace
`webhookMeta[event_type]` and save. -/
def update_and_log_webhook_event (t : Template) (event_type : Option String)
    (main_field_value : String) (event_payload : List (String × JVal)) (ts : String) :
    Template :=
  let t1 :=
    if event_type = some "status-update" then { t with status := main_field_value }
    else if event_type = some "category-update" then { t with category := main_field_value }
    else if event_type = some "quality-update" then { t with quality := some main_field_value }
    else t
  modelSave { t1 with webhookMeta :=
    (event_type, .jobj (event_payload ++ [("ts", .jstr ts)])) ::
      t1.webhookMeta.filter (fun e => ¬e.1 = event_type) }

/-- Python `str.lower()` for the ASCII payloads the provider sends. -/
def lowerAscii (s : String) : String := String.mk (s.data.map Char.toLower)

/-- The `status-update` branch of `handle_gupshup_template_webhook`
(gupshup_webhook.py 58-79 and 107-119), applied to the located template:
lowercase the payload status, validate it against the status enum to pick
`main_field_value`, collect the audit fields, `mark_as_deleted` on a
literal `'deleted'`, then run `_update_and_log_webhook_event`.  The
payload's `.lower()` is modelled for the ASCII strings the provider
sends. -/
def handle_status_update (t : Template) (status? : Option String)
    (descr? : Option String) (ts : String) : Template × Bool :=
  let new_status := lowerAscii (status?.getD "")
  let valid := ¬new_status = "" ∧ new_status ∈ STATUS_CHOICES
  let main_field_value := if valid then new_status else ""
  let meta1 : List (String × JVal) :=
    if valid then [("status", .jstr new_status)] else []
  let meta2 := meta1 ++ [("status_description",
    match descr? with
    | some d => if ¬d = "" then JVal.jstr d else JVal.jnull
    | none => JVal.jnull)]
  let t1 := if new_status = "deleted" then mark_as_deleted t else t
  (update_and_log_webhook_event t1 (some "status-update") main_field_value meta2 ts, true)

theorem update_and_log_status (t : Template) (m : String) (p : List (String × JVal))
    (ts : String) :
    (update_and_log_webhook_event t (some "status-update") m p ts).status = m := rfl

/-- C8: an unrecognized status string does *not* leave the primary status
field unchanged.  The validation only selects `main_field_value`, which
stays `''` for an invalid status — but `_update_and_log_webhook_event`
assigns `self.status = main_field_value` unconditionally for
`status-update`, so the template's status is blanked to the empty string
(clobbering whatever state it held) while the audit entry is written. -/
theorem c8_unrecognized_status_blanks_primary_status (t : Template) (s ts : String)
    (hs : ¬(lowerAscii s) ∈ STATUS_CHOICES) :
    (handle_status_update t (some s) none ts).1.status = "" ∧
    (¬t.status = "" → ¬(handle_status_update t (some s) none ts).1.status = t.status) := by
  have hvalid : ¬(¬(lowerAscii s) = "" ∧ (lowerAscii s) ∈ STATUS_CHOICES) :=
    fun h => hs h.2
  have h1 : (handle_status_update t (some s) none ts).1.status =
      (if ¬(lowerAscii s) = "" ∧ (lowerAscii s) ∈ STATUS_CHOICES
        then (lowerAscii s) else "") := by
    show (update_and_log_webhook_event
        (if (lowerAscii s) = "deleted" then mark_as_deleted t else t)
        (some "status-update")
        (if ¬(lowerAscii s) = "" ∧ (lowerAscii s) ∈ STATUS_CHOICES
          then (lowerAscii s) else "")
        ((if ¬(lowerAscii s) = "" ∧ (lowerAscii s) ∈ STATUS_CHOICES
          then [("status", JVal.jstr (lowerAscii s))] else []) ++
            [("status_description", JVal.jnull)]) ts).status = _
    exact update_and_log_status _ _ _ _
  rw [if_neg hvalid] at h1
  exact ⟨h1, fun hne habs => hne (by rw [← habs, h1])⟩

/-- Witness for the C8 theorem: a template whose status is `approved`
receives `{'type': 'status-update', 'status': 'Bogus'}` and ends with an
empty status. -/
theorem c8_unrecognized_status_witness :
    (¬(lowerAscii "Bogus") ∈ STATUS_CHOICES ∧
     ¬(modelSave { sampleTemplate with status := "approved" }).status = "") ∧
    ((handle_status_update (modelSave { sampleTemplate with status := "approved" })
        (some "Bogus") none "7.0").1.status = "" ∧
     (¬(modelSave { sampleTemplate with status := "approved" }).status = "" →
       ¬(handle_status_update (modelSave { sampleTemplate with status := "approved" })
           (some "Bogus") none "7.0").1.status =
         (modelSave { sampleTemplate with status := "approved" }).status)) :=
  ⟨⟨by decide, by decide⟩,
   c8_unrecognized_status_blanks_primary_status
     (modelSave { sampleTemplate with status := "approved" }) "Bogus" "7.0" (by decide)⟩

/-! ## Media-handle detection and the submit media phase
(utils/media_validator.py and `GupshupProvider.submit_template`,
gupshup.py 216-242) -/

/-- The `[\w\-]` character class of `GUPSHUP_HANDLE_ID_PATTERN` for the
ASCII strings at hand: letters, digits, underscore or hyphen. -/
def isWordDash (c : Char) : Bool := c.isAlphanum || c = '_' || c = '-'

/-- One `[\w\-]+:` piece of the pattern: a non-empty run of the class with
a literal colon behind it.  Because the class excludes `:`, the regex's
greedy match is exactly the maximal run. -/
def seg (p : Char → Bool) (cs : List Char) : Option (List Char) :=
  match cs.span p with
  | (a, r) =>
    match r with
    | ':' :: r' => if a.isEmpty then none else some r'
    | _ => none

def segTail (r2 : List Char) : Bool :=
  match seg isWordDash r2 with
  | none => false
  | some r3 =>
    match seg isWordDash r3 with
    | none => false
    | some r4 =>
      match r4 with
      | c :: ':' :: r5 =>
        if c.isLower then
          match r5.span Char.isDigit with
          | (ds, r6) =>
            if 10 ≤ ds.length then
              match r6 with
              | ':' :: r7 =>
                match seg isWordDash r7 with
                | none => false
                | some r8 =>
                  match seg isWordDash r8 with
                  | none => false
                  | some r9 => !r9.isEmpty && r9.all isWordDash
              | _ => false
            else false
        else false
      | _ => false

/-- `GUPSHUP_HANDLE_ID_PATTERN.match` (media_validator.py 117-127):
`^\d{1,2}::[\w\-]+:[\w\-]+:[a-z]{1}:\d{10,}:[\w\-]+:[\w\-]+:[\w\-]+$`,
written as the equivalent deterministic parser — every class excludes the
following literal `:`, so greedy matching never needs to backtrack. -/
def gupshupHandleMatch (s : String) : Bool :=
  match s.data.span Char.isDigit with
  | (d, r1) =>
    if 1 ≤ d.length ∧ d.length ≤ 2 then
      match r1 with
      | ':' :: ':' :: r2 => segTail r2
      | _ => false
    else false

/-- `is_gupshup_handle_id` (media_validator.py 129-139): empty or shorter
than 50 characters is rejected before the pattern is consulted. -/
def is_gupshup_handle_id (s : String) : Bool :=
  if s = "" ∨ s.length < 50 then false
  else gupshupHandleMatch s

/-- Outcome of `submit_template`'s media phase (gupshup.py 219-242):
`proceed mid` continues to the payload build with `provider_metadata
['media_id'] = mid`; `abort ok resp` is an early `return {'ok': ok,
'response': resp}`.  A non-handle `media_url` reaches
`is_valid_media_url(template.media_url, template.file_type)`, and
`file_type` is commented out of the model (models.py 236-241), so the
attribute access raises `AttributeError`, lands in `submit_template`'s
outer `except Exception` (gupshup.py 329-331), and the whole submission
returns `{'ok': False, 'response': 'Internal error'}` — the upload call
below the validation line is unreachable for every non-handle URL. -/
inductive MediaPhase where
  | proceed (media_id : Option String)
  | abort (ok : Bool) (response : String)
deriving DecidableEq

def submit_media_phase (t : Template) : MediaPhase :=
  match t.media_url with
  | none => .proceed none
  | some u =>
    if u = "" then .proceed none
    else if is_gupshup_handle_id u then .proceed (some u)
    else .abort false "Internal error"

theorem gupshupHandleMatch_head (u : String) (hm : gupshupHandleMatch u = true) :
    ∃ c r, u.data = c :: r ∧ c.isDigit = true := by
  unfold gupshupHandleMatch at hm
  rcases hsp : u.data.span Char.isDigit with ⟨d, r1⟩
  rw [hsp] at hm
  dsimp only at hm
  by_cases hlen : 1 ≤ d.length ∧ d.length ≤ 2
  · have hd : u.data.takeWhile Char.isDigit = d := by
      rw [List.span_eq_take_drop] at hsp
      exact congrArg Prod.fst hsp
    cases hu : u.data with
    | nil =>
      rw [hu] at hd
      simp only [List.takeWhile_nil] at hd
      rw [← hd] at hlen
      exact absurd hlen.1 (by simp)
    | cons c r =>
      refine ⟨c, r, rfl, ?_⟩
      by_contra hcd
      rw [Bool.not_eq_true] at hcd
      rw [hu] at hd
      rw [List.takeWhile_cons, hcd] at hd
      simp only [Bool.false_eq_true, if_false] at hd
      rw [← hd] at hlen
      exact absurd hlen.1 (by simp)
  · rw [if_neg hlen] at hm
    exact absurd hm (by simp)

/-- C6, counterexample: the structural-pattern example given in the
specification is 46 characters long, so `is_gupshup_handle_id` rejects it
(its length gate requires 50) even though it matches the structural
pattern; and the same template carrying a plain `https://` URL is *not*
uploaded — its submission aborts with `Internal error` before any upload,
because the validation line dereferences the non-existent
`template.file_type`. -/
theorem c6_counterexample_spec_example_rejected :
    gupshupHandleMatch "4::abcXYZ123:tokenSeg:e:1700000000:seg:seg:seg" = true ∧
    ("4::abcXYZ123:tokenSeg:e:1700000000:seg:seg:seg" : String).length = 46 ∧
    is_gupshup_handle_id "4::abcXYZ123:tokenSeg:e:1700000000:seg:seg:seg" = false ∧
    submit_media_phase
      { sampleTemplate with media_url := some "https://cdn.example.com/img.png" } =
      .abort false "Internal error" := by
  decide

/-- C6 (amended): a string that matches the structural pattern *and* is at
least 50 characters long is detected as a handle, and the media phase
reuses it as `media_id` with no upload; a string starting with `h` — any
`http(s)://` URL — never matches the detector, but instead of being
uploaded it aborts the submission with `Internal error` (the model has no
`file_type` field, so the pre-upload validation line raises). -/
theorem c6_handle_detection_and_https (s : String) (t : Template) (u : String)
    (hlen : 50 ≤ s.length) (hm : gupshupHandleMatch s = true)
    (hh : u.data.head? = some 'h') :
    is_gupshup_handle_id s = true ∧
    submit_media_phase { t with media_url := some s } = .proceed (some s) ∧
    is_gupshup_handle_id u = false ∧
    (¬u = "" → submit_media_phase { t with media_url := some u } =
      .abort false "Internal error") := by
  have hsne : ¬(s = "" ∨ s.length < 50) := by
    rintro (h | h)
    · rw [h] at hlen
      exact absurd hlen (by decide)
    · omega
  have h1 : is_gupshup_handle_id s = true := by
    rw [is_gupshup_handle_id, if_neg hsne]
    exact hm
  have hgm : gupshupHandleMatch u = false := by
    by_contra hb
    rw [Bool.not_eq_false] at hb
    obtain ⟨c, r, hur, hcd⟩ := gupshupHandleMatch_head u hb
    rw [hur] at hh
    simp only [List.head?_cons, Option.some.injEq] at hh
    rw [hh] at hcd
    exact absurd hcd (by decide)
  have h3 : is_gupshup_handle_id u = false := by
    rw [is_gupshup_handle_id]
    split
    · rfl
    · exact hgm
  refine ⟨h1, ?_, h3, ?_⟩
  · show (if s = "" then MediaPhase.proceed none
      else if is_gupshup_handle_id s then .proceed (some s)
      else .abort false "Internal error") = .proceed (some s)
    rw [if_neg (fun h => hsne (Or.inl h)), if_pos h1]
  · intro hune
    show (if u = "" then MediaPhase.proceed none
      else if is_gupshup_handle_id u then .proceed (some u)
      else .abort false "Internal error") = .abort false "Internal error"
    rw [if_neg hune, h3]
    rfl

/-- Witness for the C6 theorem: a 56-character handle and an https URL. -/
theorem c6_handle_detection_witness :
    (50 ≤ ("4::abcXYZ123:tokenSeg:e:1700000000:seg1:seg2:longsegment" : String).length ∧
     gupshupHandleMatch "4::abcXYZ123:tokenSeg:e:1700000000:seg1:seg2:longsegment" = true ∧
     ("https://cdn.example.com/img.png" : String).data.head? = some 'h') ∧
    (is_gupshup_handle_id "4::abcXYZ123:tokenSeg:e:1700000000:seg1:seg2:longsegment" = true ∧
     submit_media_phase { sampleTemplate with
       media_url := some "4::abcXYZ123:tokenSeg:e:1700000000:seg1:seg2:longsegment" } =
       .proceed (some "4::abcXYZ123:tokenSeg:e:1700000000:seg1:seg2:longsegment") ∧
     is_gupshup_handle_id "https://cdn.example.com/img.png" = false ∧
     (¬("https://cdn.example.com/img.png" : String) = "" →
       submit_media_phase { sampleTemplate with
         media_url := some "https://cdn.example.com/img.png" } =
         .abort false "Internal error")) :=
  ⟨⟨by decide, by decide, by decide⟩,
   c6_handle_detection_and_https "4::abcXYZ123:tokenSeg:e:1700000000:seg1:seg2:longsegment"
     sampleTemplate "https://cdn.example.com/img.png" (by decide) (by decide) (by decide)⟩

/-- C7: for *every* template whose `media_url` is set and is not a provider
handle, `submit_template` returns `{'ok': False, 'response': 'Internal
error'}` before any upload or provider request — whether or not the URL's
MIME type is well-formed and consistent with the declared template type.
The promised validation never runs: its own line faults on the missing
`template.file_type` attribute (the model field is commented out), and even
if it ran, its `(bool, mime)` tuple result is truthy, so `if not
isValidMedia:` could never reject. -/
theorem c7_nonhandle_media_always_internal_error (t : Template) (u : String)
    (hne : ¬u = "") (hnh : is_gupshup_handle_id u = false) :
    submit_media_phase { t with media_url := some u } = .abort false "Internal error" := by
  show (if u = "" then MediaPhase.proceed none
    else if is_gupshup_handle_id u then .proceed (some u)
    else .abort false "Internal error") = .abort false "Internal error"
  rw [if_neg hne, hnh]
  rfl

/-- Witness for the C7 theorem: a well-formed https png URL on an IMAGE
template still yields `Internal error` with no upload. -/
theorem c7_nonhandle_media_witness :
    (¬("https://cdn.example.com/pic.png" : String) = "" ∧
     is_gupshup_handle_id "https://cdn.example.com/pic.png" = false) ∧
    submit_media_phase { { sampleTemplate with templateType := "IMAGE" } with
      media_url := some "https://cdn.example.com/pic.png" } =
      .abort false "Internal error" :=
  ⟨⟨by decide, by decide⟩,
   c7_nonhandle_media_always_internal_error
     { sampleTemplate with templateType := "IMAGE" } "https://cdn.example.com/pic.png"
     (by decide) (by decide)⟩

end WaTemplates
